import Mathlib

/-!
Verification of the `comfyui-mislg-tools` node collection against its
natural-language specification.

The Python sources are shallowly embedded: tensors become a record of a
shape, a dtype tag and a flat row-major list of rational values; file-system
dependent code is parameterised by an abstract `FileSys` record; fallible
operations return `Option` / `Except`.  Every definition is translated from
the corresponding Python function (file and function named in its doc
comment); theorems at the end settle the claims.
-/

namespace Mislg

/-! ## Tensor model -/

/-- Torch dtypes that the repository inspects (`torch.float32`,
`torch.uint8`); `float16` stands for any other dtype. -/
inductive DType where
  | float32
  | float16
  | uint8
deriving DecidableEq, Repr

/-- A torch tensor: shape, dtype and flat row-major data. -/
structure Tensor where
  shape : List Nat
  dtype : DType
  data : List ℚ
deriving DecidableEq, Repr

/-- A tensor is well formed when its data has exactly as many entries as the
shape prescribes. -/
def prodShape (s : List Nat) : Nat := s.foldr (· * ·) 1

def Tensor.wf (t : Tensor) : Prop := t.data.length = prodShape t.shape

/-- `torch.zeros(s, dtype=torch.float32)`. -/
def tzeros (s : List Nat) : Tensor := ⟨s, DType.float32, List.replicate (prodShape s) 0⟩

/-- `torch.ones(s, dtype=torch.float32)`. -/
def tones (s : List Nat) : Tensor := ⟨s, DType.float32, List.replicate (prodShape s) 1⟩

/-- Apply a function to every entry (elementwise torch op). -/
def Tensor.mapData (f : ℚ → ℚ) (t : Tensor) : Tensor := ⟨t.shape, t.dtype, t.data.map f⟩

/-- Change only the dtype tag (`Tensor.to` / `Tensor.float` casts; the
numeric values are preserved in the rational model). -/
def Tensor.withDtype (d : DType) (t : Tensor) : Tensor := ⟨t.shape, d, t.data⟩

/-- Shape after `torch.squeeze(i)`: dimension `i` is removed iff it is 1. -/
def squeezeShape (s : List Nat) (i : Nat) : List Nat :=
  if s.getD i 0 = 1 then s.take i ++ s.drop (i + 1) else s

/-- `Tensor.squeeze i`; a squeezed size-1 axis does not move any data in a
row-major layout. -/
def Tensor.squeeze (t : Tensor) (i : Nat) : Tensor := ⟨squeezeShape t.shape i, t.dtype, t.data⟩

def insertAt (s : List Nat) (i : Nat) (v : Nat) : List Nat := s.take i ++ v :: s.drop i

/-- `Tensor.unsqueeze i`; inserting a size-1 axis does not move data. -/
def Tensor.unsqueeze (t : Tensor) (i : Nat) : Tensor := ⟨insertAt t.shape i 1, t.dtype, t.data⟩

/-- Row-major multi-index of flat index `k` in shape `s`. -/
def unflattenIdx : List Nat → Nat → List Nat
  | [], _ => []
  | _ :: ds, k => k / prodShape ds :: unflattenIdx ds (k % prodShape ds)

/-- Row-major flat index of multi-index `m` in shape `s`. -/
def flattenIdx : List Nat → List Nat → Nat
  | _ :: ds, i :: is => i * prodShape ds + flattenIdx ds is
  | _, _ => 0

/-- `Tensor.permute p`: axis `k` of the result is axis `p k` of the input;
data is re-gathered through the row-major index maps (out-of-range reads
default to 0, which never happens on well-formed inputs). -/
def Tensor.permute (t : Tensor) (p : List Nat) : Tensor :=
  let newShape := p.map (fun j => t.shape.getD j 0)
  let data := (List.range (prodShape newShape)).map (fun k =>
    let m := unflattenIdx newShape k
    let src := (List.range t.shape.length).map (fun j =>
      match p.indexOf? j with
      | some pos => m.getD pos 0
      | none => 0)
    t.data.getD (flattenIdx t.shape src) 0)
  ⟨newShape, t.dtype, data⟩

/-- `Tensor.repeat reps` (tiling); requires `reps.length = ndim` at every
call site in the sources. -/
def Tensor.tileRepeat (t : Tensor) (reps : List Nat) : Tensor :=
  let newShape := List.zipWith (· * ·) reps t.shape
  let data := (List.range (prodShape newShape)).map (fun k =>
    let m := unflattenIdx newShape k
    let src := List.zipWith (fun mi di => mi % di) m t.shape
    t.data.getD (flattenIdx t.shape src) 0)
  ⟨newShape, t.dtype, data⟩

/-- `torch.min(t).item()` (0 on an empty tensor, where torch would raise). -/
def tmin (t : Tensor) : ℚ :=
  match t.data with
  | [] => 0
  | x :: xs => xs.foldl min x

/-- `torch.max(t).item()` (0 on an empty tensor, where torch would raise). -/
def tmax (t : Tensor) : ℚ :=
  match t.data with
  | [] => 0
  | x :: xs => xs.foldl max x

/-- Elementwise `a + b` for same-shaped tensors (shape and dtype are taken
from the left operand, as the call sites only add same-shaped float
tensors). -/
def tadd (a b : Tensor) : Tensor := ⟨a.shape, a.dtype, List.zipWith (· + ·) a.data b.data⟩

/-- Scalar multiplication `t * c`. -/
def tsmul (c : ℚ) (t : Tensor) : Tensor := t.mapData (fun x => x * c)

/-- `shape[-1]` (0 for a 0-d tensor, where Python would raise). -/
def lastDim (s : List Nat) : Nat := s.getD (s.length - 1) 0

/-! ### Basic tensor lemmas -/

@[simp] lemma mapData_shape (f : ℚ → ℚ) (t : Tensor) : (t.mapData f).shape = t.shape := rfl

@[simp] lemma mapData_dtype (f : ℚ → ℚ) (t : Tensor) : (t.mapData f).dtype = t.dtype := rfl

@[simp] lemma mapData_data (f : ℚ → ℚ) (t : Tensor) : (t.mapData f).data = t.data.map f := rfl

@[simp] lemma withDtype_shape (d : DType) (t : Tensor) : (t.withDtype d).shape = t.shape := rfl

@[simp] lemma withDtype_dtype (d : DType) (t : Tensor) : (t.withDtype d).dtype = d := rfl

@[simp] lemma withDtype_data (d : DType) (t : Tensor) : (t.withDtype d).data = t.data := rfl

@[simp] lemma squeeze_shape (t : Tensor) (i : Nat) : (t.squeeze i).shape = squeezeShape t.shape i := rfl

@[simp] lemma squeeze_dtype (t : Tensor) (i : Nat) : (t.squeeze i).dtype = t.dtype := rfl

@[simp] lemma squeeze_data (t : Tensor) (i : Nat) : (t.squeeze i).data = t.data := rfl

@[simp] lemma unsqueeze_shape (t : Tensor) (i : Nat) : (t.unsqueeze i).shape = insertAt t.shape i 1 := rfl

@[simp] lemma unsqueeze_dtype (t : Tensor) (i : Nat) : (t.unsqueeze i).dtype = t.dtype := rfl

@[simp] lemma unsqueeze_data (t : Tensor) (i : Nat) : (t.unsqueeze i).data = t.data := rfl

@[simp] lemma permute_shape (t : Tensor) (p : List Nat) :
    (t.permute p).shape = p.map (fun j => t.shape.getD j 0) := rfl

@[simp] lemma permute_dtype (t : Tensor) (p : List Nat) : (t.permute p).dtype = t.dtype := rfl

@[simp] lemma tileRepeat_shape (t : Tensor) (reps : List Nat) :
    (t.tileRepeat reps).shape = List.zipWith (· * ·) reps t.shape := rfl

@[simp] lemma tileRepeat_dtype (t : Tensor) (reps : List Nat) : (t.tileRepeat reps).dtype = t.dtype := rfl

lemma getD_mem_or_default (l : List ℚ) (i : Nat) (d : ℚ) : l.getD i d ∈ l ∨ l.getD i d = d := by
  by_cases h : i < l.length
  · left
    rw [List.getD_eq_getElem l d h]
    exact l.getElem_mem h
  · right
    exact List.getD_eq_default l d (Nat.le_of_not_lt h)

lemma mem_permute_data (t : Tensor) (p : List Nat) (x : ℚ) (hx : x ∈ (t.permute p).data) :
    x ∈ t.data ∨ x = 0 := by
  simp only [Tensor.permute, List.mem_map] at hx
  obtain ⟨k, -, hk⟩ := hx
  subst hk
  exact getD_mem_or_default _ _ _

lemma mem_tileRepeat_data (t : Tensor) (reps : List Nat) (x : ℚ) (hx : x ∈ (t.tileRepeat reps).data) :
    x ∈ t.data ∨ x = 0 := by
  simp only [Tensor.tileRepeat, List.mem_map] at hx
  obtain ⟨k, -, hk⟩ := hx
  subst hk
  exact getD_mem_or_default _ _ _

/-! ## `vae_optimizer.py` — `VAEDecoderOptimizer.ensure_compatible_output`

The body of `ensure_compatible_output` is a sequence of labelled sections;
each becomes one `stage*` definition below and the function is their
composition.  `debug_output` only prints and is omitted. -/

/-- 5-D squeeze section (`vae_optimizer.py` lines 157-164). -/
def stage5d (image : Tensor) : Tensor :=
  if image.shape.length = 5 then
    if image.shape.getD 0 0 = 1 ∧ image.shape.getD 1 0 = 1 then (image.squeeze 0).squeeze 0
    else if image.shape.getD 0 0 = 1 then image.squeeze 0
    else image
  else image

/-- uint8 section (lines 167-170): `image.float() / 255.0`. -/
def stageUint8 (image : Tensor) : Tensor :=
  if image.dtype = DType.uint8 then (image.mapData (fun x => x / 255)).withDtype DType.float32
  else image

/-- float32 section (lines 179-183); the `isinstance` re-wrap of lines
173-176 is an identity on tensors and is omitted. -/
def stageFloat32 (ensure_float32 : Bool) (image : Tensor) : Tensor :=
  if ensure_float32 ∧ image.dtype ≠ DType.float32 then image.withDtype DType.float32
  else image

/-- First half of the `fix_tensor_shape` section (lines 190-199):
`(B, 1, H, W)` handling. -/
def fixShapeStepA (image : Tensor) : Tensor :=
  if image.shape.length = 4 ∧ image.shape.getD 1 0 = 1 then
    if image.shape.getD 3 0 = 3 then image.permute [0, 2, 1, 3]
    else image.squeeze 1
  else image

/-- Second half of the `fix_tensor_shape` section (lines 202-211):
batch-dimension insertion and BCHW → BHWC. -/
def fixShapeStepB (image : Tensor) : Tensor :=
  if image.shape.length = 3 then image.unsqueeze 0
  else if image.shape.length = 4 ∧ image.shape.getD 1 0 = 3 then image.permute [0, 2, 3, 1]
  else image

def stageShape (fix_tensor_shape : Bool) (image : Tensor) : Tensor :=
  if fix_tensor_shape then fixShapeStepB (fixShapeStepA image) else image

/-- `torch.clamp(image, 0.0, 1.0)` (line 237). -/
def clampData (image : Tensor) : Tensor := image.mapData (fun x => min (max x 0) 1)

/-- Range-remapping core of the `normalize_output` section (lines 221-234). -/
def normRemap (image : Tensor) : Tensor :=
  if tmin image < -(1 / 10) ∨ 11 / 10 < tmax image then
    if -(11 / 10) ≤ tmin image ∧ tmax image ≤ 11 / 10 then
      image.mapData (fun x => (x + 1) / 2)
    else if 1 / 1000000 < tmax image - tmin image then
      image.mapData (fun x => (x - tmin image) / (tmax image - tmin image))
    else image
  else image

/-- `normalize_output` section (lines 214-241). -/
def stageNormalize (normalize_output : Bool) (image : Tensor) : Tensor :=
  if normalize_output then clampData (normRemap image) else image

/-- `VAEDecoderOptimizer.fix_final_shape` (`vae_optimizer.py` lines 254-285). -/
def fix_final_shape (image : Tensor) : Tensor :=
  if image.shape.length = 2 then
    ((image.unsqueeze 2).tileRepeat [1, 1, 3]).unsqueeze 0
  else if image.shape.length = 3 then
    if image.shape.getD 2 0 = 3 then image.unsqueeze 0
    else if image.shape.getD 0 0 = 3 then (image.permute [1, 2, 0]).unsqueeze 0
    else (image.unsqueeze 3).tileRepeat [1, 1, 1, 3]
  else if image.shape.length = 4 then
    if image.shape.getD 1 0 = 3 then image.permute [0, 2, 3, 1]
    else if image.shape.getD 3 0 ≠ 3 then
      if image.shape.getD 1 0 = 1 ∧ image.shape.getD 3 0 = 3 then image.squeeze 1
      else image
    else image
  else image

/-- `VAEDecoderOptimizer.ensure_compatible_output` (lines 149-252). -/
def ensure_compatible_output (image : Tensor)
    (ensure_float32 normalize_output fix_tensor_shape : Bool) : Tensor :=
  let image := stage5d image
  let image := stageUint8 image
  let image := stageFloat32 ensure_float32 image
  let image := stageShape fix_tensor_shape image
  let image := stageNormalize normalize_output image
  if image.shape.length ≠ 4 ∨ lastDim image.shape ≠ 3 then fix_final_shape image else image

/-- `VAEDecoderOptimizer.create_compatible_fallback_image` (lines 287-289). -/
def create_compatible_fallback_image : Tensor := tzeros [1, 512, 512, 3]

/-! ### Stage lemmas -/

@[simp] lemma stage5d_dtype (t : Tensor) : (stage5d t).dtype = t.dtype := by
  unfold stage5d; split_ifs <;> simp

@[simp] lemma stageUint8_shape (t : Tensor) : (stageUint8 t).shape = t.shape := by
  unfold stageUint8; split_ifs <;> simp

@[simp] lemma stageFloat32_shape (b : Bool) (t : Tensor) : (stageFloat32 b t).shape = t.shape := by
  unfold stageFloat32; split_ifs <;> simp

@[simp] lemma normRemap_shape (t : Tensor) : (normRemap t).shape = t.shape := by
  unfold normRemap; split_ifs <;> simp

@[simp] lemma normRemap_dtype (t : Tensor) : (normRemap t).dtype = t.dtype := by
  unfold normRemap; split_ifs <;> simp

@[simp] lemma clampData_shape (t : Tensor) : (clampData t).shape = t.shape := rfl

@[simp] lemma clampData_dtype (t : Tensor) : (clampData t).dtype = t.dtype := rfl

@[simp] lemma stageNormalize_shape (b : Bool) (t : Tensor) : (stageNormalize b t).shape = t.shape := by
  unfold stageNormalize; split_ifs <;> simp

@[simp] lemma stageNormalize_dtype (b : Bool) (t : Tensor) : (stageNormalize b t).dtype = t.dtype := by
  unfold stageNormalize; split_ifs <;> simp

@[simp] lemma fixShapeStepA_dtype (t : Tensor) : (fixShapeStepA t).dtype = t.dtype := by
  unfold fixShapeStepA; split_ifs <;> simp

@[simp] lemma fixShapeStepB_dtype (t : Tensor) : (fixShapeStepB t).dtype = t.dtype := by
  unfold fixShapeStepB; split_ifs <;> simp

@[simp] lemma stageShape_dtype (b : Bool) (t : Tensor) : (stageShape b t).dtype = t.dtype := by
  unfold stageShape; split_ifs <;> simp

@[simp] lemma fix_final_shape_dtype (t : Tensor) : (fix_final_shape t).dtype = t.dtype := by
  unfold fix_final_shape; split_ifs <;> simp

lemma stageFloat32_true_dtype (t : Tensor) : (stageFloat32 true t).dtype = DType.float32 := by
  unfold stageFloat32
  split_ifs with h
  · simp
  · simp only [true_and, not_not] at h
    simpa using h

lemma ensure_dtype_float32 (t : Tensor) (no fts : Bool) :
    (ensure_compatible_output t true no fts).dtype = DType.float32 := by
  dsimp only [ensure_compatible_output]
  split_ifs <;>
    simp [stageFloat32_true_dtype]

lemma mem_clampData (t : Tensor) (x : ℚ) (hx : x ∈ (clampData t).data) : 0 ≤ x ∧ x ≤ 1 := by
  simp only [clampData, mapData_data, List.mem_map] at hx
  obtain ⟨y, -, hy⟩ := hx
  subst hy
  exact ⟨le_min (le_max_right y 0) (by norm_num), min_le_right _ 1⟩

lemma mem_stageNormalize_true (t : Tensor) (x : ℚ) (hx : x ∈ (stageNormalize true t).data) :
    0 ≤ x ∧ x ≤ 1 := by
  unfold stageNormalize at hx
  simp only [if_pos] at hx
  exact mem_clampData _ _ hx

lemma mem_fix_final_shape (t : Tensor) (x : ℚ) (hx : x ∈ (fix_final_shape t).data) :
    x ∈ t.data ∨ x = 0 := by
  have hUT : ∀ (u : Tensor) (i : Nat) (reps : List Nat) (y : ℚ),
      y ∈ ((u.unsqueeze i).tileRepeat reps).data → y ∈ u.data ∨ y = 0 := by
    intro u i reps y hy
    rcases mem_tileRepeat_data _ _ _ hy with h | h
    · exact Or.inl (by simpa using h)
    · exact Or.inr h
  have hPU : ∀ (u : Tensor) (p : List Nat) (y : ℚ),
      y ∈ ((u.permute p).unsqueeze 0).data → y ∈ u.data ∨ y = 0 := by
    intro u p y hy
    exact mem_permute_data _ _ _ (by simpa using hy)
  unfold fix_final_shape at hx
  split_ifs at hx <;>
    first
      | exact Or.inl hx
      | exact Or.inl (by simpa using hx)
      | exact hUT _ _ _ _ (by simpa using hx)
      | exact hUT _ _ _ _ hx
      | exact hPU _ _ _ hx

lemma mem_ensure_bounds (t : Tensor) (fts : Bool) (x : ℚ)
    (hx : x ∈ (ensure_compatible_output t true true fts).data) : 0 ≤ x ∧ x ≤ 1 := by
  dsimp only [ensure_compatible_output] at hx
  split_ifs at hx
  · rcases mem_fix_final_shape _ _ hx with h | h
    · exact mem_stageNormalize_true _ _ h
    · subst h; norm_num
  · exact mem_stageNormalize_true _ _ hx

/-! ### Pure shape pipeline

The shape effect of `ensure_compatible_output` with `fix_tensor_shape=True`
depends only on the input shape; these mirror the stages at the
`List Nat` level. -/

def squeeze5dShape (s : List Nat) : List Nat :=
  if s.length = 5 then
    if s.getD 0 0 = 1 ∧ s.getD 1 0 = 1 then squeezeShape (squeezeShape s 0) 0
    else if s.getD 0 0 = 1 then squeezeShape s 0
    else s
  else s

def fixShapeStepAShape (s : List Nat) : List Nat :=
  if s.length = 4 ∧ s.getD 1 0 = 1 then
    if s.getD 3 0 = 3 then [0, 2, 1, 3].map (fun j => s.getD j 0)
    else squeezeShape s 1
  else s

def fixShapeStepBShape (s : List Nat) : List Nat :=
  if s.length = 3 then insertAt s 0 1
  else if s.length = 4 ∧ s.getD 1 0 = 3 then [0, 2, 3, 1].map (fun j => s.getD j 0)
  else s

def fixFinalShapeShape (s : List Nat) : List Nat :=
  if s.length = 2 then insertAt (List.zipWith (· * ·) [1, 1, 3] (insertAt s 2 1)) 0 1
  else if s.length = 3 then
    if s.getD 2 0 = 3 then insertAt s 0 1
    else if s.getD 0 0 = 3 then insertAt ([1, 2, 0].map (fun j => s.getD j 0)) 0 1
    else List.zipWith (· * ·) [1, 1, 1, 3] (insertAt s 3 1)
  else if s.length = 4 then
    if s.getD 1 0 = 3 then [0, 2, 3, 1].map (fun j => s.getD j 0)
    else if s.getD 3 0 ≠ 3 then
      if s.getD 1 0 = 1 ∧ s.getD 3 0 = 3 then squeezeShape s 1 else s
    else s
  else s

def ensureShapeTrue (s : List Nat) : List Nat :=
  let s1 := fixShapeStepBShape (fixShapeStepAShape (squeeze5dShape s))
  if s1.length ≠ 4 ∨ lastDim s1 ≠ 3 then fixFinalShapeShape s1 else s1

lemma stage5d_shape (t : Tensor) : (stage5d t).shape = squeeze5dShape t.shape := by
  unfold stage5d squeeze5dShape; split_ifs <;> simp

lemma fixShapeStepA_shape (t : Tensor) : (fixShapeStepA t).shape = fixShapeStepAShape t.shape := by
  unfold fixShapeStepA fixShapeStepAShape; split_ifs <;> simp

lemma fixShapeStepB_shape (t : Tensor) : (fixShapeStepB t).shape = fixShapeStepBShape t.shape := by
  unfold fixShapeStepB fixShapeStepBShape; split_ifs <;> simp

lemma fix_final_shape_shape (t : Tensor) : (fix_final_shape t).shape = fixFinalShapeShape t.shape := by
  unfold fix_final_shape fixFinalShapeShape; split_ifs <;> simp

lemma stageShape_true (u : Tensor) : stageShape true u = fixShapeStepB (fixShapeStepA u) := rfl

lemma shape_ensure (t : Tensor) (ef no : Bool) :
    (ensure_compatible_output t ef no true).shape = ensureShapeTrue t.shape := by
  dsimp only [ensure_compatible_output, ensureShapeTrue]
  have hsn : (stageNormalize no (stageShape true (stageFloat32 ef (stageUint8 (stage5d t))))).shape
      = fixShapeStepBShape (fixShapeStepAShape (squeeze5dShape t.shape)) := by
    rw [stageNormalize_shape, stageShape_true, fixShapeStepB_shape]
    congr 1
    rw [fixShapeStepA_shape]
    congr 1
    rw [stageFloat32_shape, stageUint8_shape, stage5d_shape]
  rw [← hsn]
  split_ifs with h
  · exact fix_final_shape_shape _
  · rfl

/-- The shapes (of dimension 2-5) on which `ensure_compatible_output` with
`fix_tensor_shape=True` actually delivers the `(B, H, W, 3)` contract:
2-D inputs always work; otherwise a size-3 axis must sit in one of the
positions the shape-fixing code recognises. -/
def goodShape : List Nat → Prop
  | [_, _] => True
  | [a, _, c] => c = 3 ∨ a = 3
  | [a, b, _, d] => (b = 1 ∧ (d = 3 ∨ a = 3)) ∨ b = 3 ∨ d = 3
  | [a, b, c, _, e] =>
      a = 1 ∧ (if b = 1 then e = 3 ∨ c = 3 else (c = 1 ∧ (e = 3 ∨ b = 3)) ∨ c = 3 ∨ e = 3)
  | _ => False

lemma pureShape2 (a b : Nat) :
    (ensureShapeTrue [a, b]).length = 4 ∧ lastDim (ensureShapeTrue [a, b]) = 3 := by
  simp [ensureShapeTrue, squeeze5dShape, fixShapeStepAShape, fixShapeStepBShape,
    fixFinalShapeShape, squeezeShape, insertAt, lastDim]

set_option maxHeartbeats 800000 in
lemma pureShape3 (a b c : Nat) :
    ((ensureShapeTrue [a, b, c]).length = 4 ∧ lastDim (ensureShapeTrue [a, b, c]) = 3)
      ↔ (c = 3 ∨ a = 3) := by
  by_cases hc : c = 3 <;> by_cases ha : a = 3 <;>
    simp_all [ensureShapeTrue, squeeze5dShape, fixShapeStepAShape, fixShapeStepBShape,
      fixFinalShapeShape, squeezeShape, insertAt, lastDim]

set_option maxHeartbeats 800000 in
lemma pureShape4 (a b c d : Nat) :
    ((ensureShapeTrue [a, b, c, d]).length = 4 ∧ lastDim (ensureShapeTrue [a, b, c, d]) = 3)
      ↔ ((b = 1 ∧ (d = 3 ∨ a = 3)) ∨ b = 3 ∨ d = 3) := by
  by_cases hb1 : b = 1
  · by_cases hd3 : d = 3
    · by_cases hc3 : c = 3 <;>
        simp_all [ensureShapeTrue, squeeze5dShape, fixShapeStepAShape, fixShapeStepBShape,
          fixFinalShapeShape, squeezeShape, insertAt, lastDim]
    · by_cases ha3 : a = 3 <;>
        simp_all [ensureShapeTrue, squeeze5dShape, fixShapeStepAShape, fixShapeStepBShape,
          fixFinalShapeShape, squeezeShape, insertAt, lastDim]
  · by_cases hb3 : b = 3 <;> by_cases hd3 : d = 3 <;>
      simp_all [ensureShapeTrue, squeeze5dShape, fixShapeStepAShape, fixShapeStepBShape,
        fixFinalShapeShape, squeezeShape, insertAt, lastDim]

set_option maxHeartbeats 800000 in
lemma pureShape5 (a b c d e : Nat) :
    ((ensureShapeTrue [a, b, c, d, e]).length = 4 ∧ lastDim (ensureShapeTrue [a, b, c, d, e]) = 3)
      ↔ goodShape [a, b, c, d, e] := by
  by_cases ha1 : a = 1
  · by_cases hb1 : b = 1
    · have hsq : squeeze5dShape [a, b, c, d, e] = [c, d, e] := by
        simp [squeeze5dShape, squeezeShape, ha1, hb1]
      have hred : ensureShapeTrue [a, b, c, d, e] = ensureShapeTrue [c, d, e] := by
        dsimp only [ensureShapeTrue]
        rw [hsq, show squeeze5dShape [c, d, e] = [c, d, e] from by simp [squeeze5dShape]]
      rw [hred, pureShape3 c d e]
      simp [goodShape, ha1, hb1]
    · have hsq : squeeze5dShape [a, b, c, d, e] = [b, c, d, e] := by
        simp [squeeze5dShape, squeezeShape, ha1, hb1]
      have hred : ensureShapeTrue [a, b, c, d, e] = ensureShapeTrue [b, c, d, e] := by
        dsimp only [ensureShapeTrue]
        rw [hsq, show squeeze5dShape [b, c, d, e] = [b, c, d, e] from by simp [squeeze5dShape]]
      rw [hred, pureShape4 b c d e]
      simp [goodShape, ha1, hb1]
  · simp_all [ensureShapeTrue, squeeze5dShape, fixShapeStepAShape, fixShapeStepBShape,
      fixFinalShapeShape, squeezeShape, insertAt, lastDim, goodShape]

lemma pureShapeIff (s : List Nat) (h2 : 2 ≤ s.length) (h5 : s.length ≤ 5) :
    ((ensureShapeTrue s).length = 4 ∧ lastDim (ensureShapeTrue s) = 3) ↔ goodShape s := by
  match s with
  | [] => simp at h2
  | [a] => simp at h2
  | [a, b] => simpa [goodShape] using pureShape2 a b
  | [a, b, c] => simpa [goodShape] using pureShape3 a b c
  | [a, b, c, d] => simpa [goodShape] using pureShape4 a b c d
  | [a, b, c, d, e] => exact pureShape5 a b c d e
  | a :: b :: c :: d :: e :: f :: rest => simp at h5

/-! ## Claims C2 and C3 -/

/-- C2: for every (nonempty) input tensor, `ensure_compatible_output` called
with `ensure_float32=True` and `normalize_output=True` returns a tensor of
dtype float32 all of whose entries lie in the closed interval `[0, 1]`. -/
theorem C2_float32_normalized (t : Tensor) (fts : Bool) (_h : t.data ≠ []) :
    (ensure_compatible_output t true true fts).dtype = DType.float32 ∧
      ∀ x ∈ (ensure_compatible_output t true true fts).data, 0 ≤ x ∧ x ≤ 1 :=
  ⟨ensure_dtype_float32 t true fts, fun x hx => mem_ensure_bounds t fts x hx⟩

/-- Witness for C2 at the concrete uint8 tensor `⟨[1,1,1,3], [0,128,255]⟩`. -/
theorem C2_float32_normalized_witness :
    (⟨[1, 1, 1, 3], DType.uint8, [0, 128, 255]⟩ : Tensor).data ≠ [] ∧
      ((ensure_compatible_output ⟨[1, 1, 1, 3], DType.uint8, [0, 128, 255]⟩ true true true).dtype
          = DType.float32 ∧
        ∀ x ∈ (ensure_compatible_output ⟨[1, 1, 1, 3], DType.uint8, [0, 128, 255]⟩ true true true).data,
          0 ≤ x ∧ x ≤ 1) :=
  ⟨by simp, C2_float32_normalized ⟨[1, 1, 1, 3], DType.uint8, [0, 128, 255]⟩ true (by simp)⟩

/-- C3 is false as stated: the 3-dimensional input of shape `(2,2,2)` comes
out of `ensure_compatible_output` (with `fix_tensor_shape=True`) with shape
`(1,2,2,2)`, which has last dimension 2, not 3. -/
theorem C3_counterexample :
    ¬ ((ensure_compatible_output ⟨[2, 2, 2], DType.float32, List.replicate 8 0⟩ true true true).shape.length = 4
        ∧ lastDim (ensure_compatible_output ⟨[2, 2, 2], DType.float32, List.replicate 8 0⟩ true true true).shape = 3) := by
  rw [shape_ensure]
  decide

/-- C3 (amended): with `fix_tensor_shape=True`, an input of dimension 2-5
satisfies the output contract (exactly 4 dimensions, last dimension 3)
precisely when its shape is one of the forms the shape-fixing code
recognises (`goodShape`): every 2-D shape; a 3-D shape with first or last
dimension 3; a 4-D shape with second dimension 3, last dimension 3, or
second dimension 1 and (last dimension 3 or first dimension 3); a 5-D shape
only when its first dimension is 1, reducing to the 3-D or 4-D rule. -/
theorem C3_shape_contract_iff (t : Tensor) (ef no : Bool)
    (h2 : 2 ≤ t.shape.length) (h5 : t.shape.length ≤ 5) :
    ((ensure_compatible_output t ef no true).shape.length = 4
        ∧ lastDim (ensure_compatible_output t ef no true).shape = 3) ↔ goodShape t.shape := by
  rw [shape_ensure]
  exact pureShapeIff t.shape h2 h5

/-- Witness for the amended C3 at the concrete 2-D tensor of shape `[4,5]`. -/
theorem C3_shape_contract_iff_witness :
    2 ≤ (⟨[4, 5], DType.float32, List.replicate 20 0⟩ : Tensor).shape.length ∧
      (⟨[4, 5], DType.float32, List.replicate 20 0⟩ : Tensor).shape.length ≤ 5 ∧
      ((ensure_compatible_output ⟨[4, 5], DType.float32, List.replicate 20 0⟩ true true true).shape.length = 4
        ∧ lastDim (ensure_compatible_output ⟨[4, 5], DType.float32, List.replicate 20 0⟩ true true true).shape = 3) :=
  ⟨by simp, by simp,
    (C3_shape_contract_iff ⟨[4, 5], DType.float32, List.replicate 20 0⟩ true true
      (by simp) (by simp)).mpr trivial⟩

/-! ## `image_switch.py` -/

namespace ImageSwitchManual

/-- `ImageSwitchManual.switch_images` (`image_switch.py` lines 33-58). -/
def switch_images (select_first : Bool) (image_A image_B : Option Tensor) : Tensor × String :=
  match select_first, image_A, image_B with
  | true, some a, _ => (a, "✅ 输出图片A")
  | false, _, some b => (b, "✅ 输出图片B")
  | true, none, some b => (b, "⚠️ 第一张图不存在，自动切换到第二张图")
  | false, some a, none => (a, "⚠️ 第二张图不存在，自动切换到第一张图")
  | _, none, none => (tzeros [1, 512, 512, 3], "⚠️ 没有输入图片，创建空白图片")

end ImageSwitchManual

namespace ImageBlendSwitch

/-- `ImageBlendSwitch.blend_images` (`image_switch.py` lines 145-179).
The mixing line `image_A * (1.0 - blend_factor) + image_B * blend_factor`
becomes `tadd (tsmul ..) (tsmul ..)`. -/
def blend_images (blend_factor : ℚ) (use_blend : Bool) (image_A image_B : Option Tensor) :
    Tensor × String :=
  match image_A, image_B with
  | none, none => (tzeros [1, 512, 512, 3], "⚠️ 没有输入图片，创建空白图片")
  | none, some b => (b, "✅ 只有图片B可用")
  | some a, none => (a, "✅ 只有图片A可用")
  | some a, some b =>
    if a.shape ≠ b.shape then (a, "⚠️ 图像尺寸不匹配，使用图片A")
    else if use_blend then
      (tadd (tsmul (1 - blend_factor) a) (tsmul blend_factor b),
        "🔄 混合图像 (混合因子: " ++ toString blend_factor ++ ")")
    else if blend_factor < 1 / 2 then
      (a, "✅ 选择图片A (混合因子: " ++ toString blend_factor ++ ")")
    else
      (b, "✅ 选择图片B (混合因子: " ++ toString blend_factor ++ ")")

end ImageBlendSwitch

/-! ## `utils.py` — typed pass-through switches

Each of the eight switches has the same body shape: return the selected
input when connected, otherwise fall back to the other input, otherwise
return the type's fixed default.  They are embedded one by one over the
corresponding value types. -/

/-- `{"samples": torch.zeros([1, 4, 64, 64])}` and friends: a LATENT value. -/
structure Latent where
  samples : Tensor
deriving DecidableEq

/-- CONDITIONING values are handled opaquely by the sources; a list of
tensors is a faithful concrete stand-in. -/
def Conditioning := List Tensor

namespace AudioSwitch

/-- `AudioSwitch.switch_audio` (`utils.py` lines 161-180): select, else
fall back to the other connected input, else default silent audio. -/
def switch_audio (select_input : String) (input1 input2 : Option Tensor) : Tensor × String :=
  let status := "音频切换器: 选择 " ++ select_input
  match input1, input2 with
  | some v1, some v2 =>
      if select_input = "input1" then (v1, status)
      else if select_input = "input2" then (v2, status)
      else (v1, status ++ " (回退到输入1)")
  | some v1, none =>
      if select_input = "input1" then (v1, status)
      else (v1, status ++ " (回退到输入1)")
  | none, some v2 =>
      if select_input = "input2" then (v2, status)
      else (v2, status ++ " (回退到输入2)")
  | none, none => (tzeros [1, 44100], status ++ " (使用默认音频)")

end AudioSwitch

namespace VideoSwitch

/-- `VideoSwitch.switch_video` (`utils.py` lines 202-221). -/
def switch_video (select_input : String) (input1 input2 : Option Tensor) : Tensor × String :=
  let status := "视频切换器: 选择 " ++ select_input
  match input1, input2 with
  | some v1, some v2 =>
      if select_input = "input1" then (v1, status)
      else if select_input = "input2" then (v2, status)
      else (v1, status ++ " (回退到输入1)")
  | some v1, none =>
      if select_input = "input1" then (v1, status)
      else (v1, status ++ " (回退到输入1)")
  | none, some v2 =>
      if select_input = "input2" then (v2, status)
      else (v2, status ++ " (回退到输入2)")
  | none, none => (tzeros [1, 64, 64, 3], status ++ " (使用默认视频)")

end VideoSwitch

namespace LatentSwitch

/-- `LatentSwitch.switch_latent` (`utils.py` lines 243-262). -/
def switch_latent (select_input : String) (input1 input2 : Option Latent) : Latent × String :=
  let status := "潜在空间切换器: 选择 " ++ select_input
  match input1, input2 with
  | some v1, some v2 =>
      if select_input = "input1" then (v1, status)
      else if select_input = "input2" then (v2, status)
      else (v1, status ++ " (回退到输入1)")
  | some v1, none =>
      if select_input = "input1" then (v1, status)
      else (v1, status ++ " (回退到输入1)")
  | none, some v2 =>
      if select_input = "input2" then (v2, status)
      else (v2, status ++ " (回退到输入2)")
  | none, none => (⟨tzeros [1, 4, 64, 64]⟩, status ++ " (使用默认潜在空间)")

end LatentSwitch

namespace ConditioningSwitch

/-- `ConditioningSwitch.switch_conditioning` (`utils.py` lines 284-302). -/
def switch_conditioning (select_input : String) (input1 input2 : Option Conditioning) :
    Conditioning × String :=
  let status := "条件切换器: 选择 " ++ select_input
  match input1, input2 with
  | some v1, some v2 =>
      if select_input = "input1" then (v1, status)
      else if select_input = "input2" then (v2, status)
      else (v1, status ++ " (回退到输入1)")
  | some v1, none =>
      if select_input = "input1" then (v1, status)
      else (v1, status ++ " (回退到输入1)")
  | none, some v2 =>
      if select_input = "input2" then (v2, status)
      else (v2, status ++ " (回退到输入2)")
  | none, none => (([] : List Tensor), status ++ " (使用空条件)")

end ConditioningSwitch

namespace StringSwitch

/-- `StringSwitch.switch_string` (`utils.py` lines 324-342). -/
def switch_string (select_input : String) (input1 input2 : Option String) : String × String :=
  let status := "字符串切换器: 选择 " ++ select_input
  match input1, input2 with
  | some v1, some v2 =>
      if select_input = "input1" then (v1, status)
      else if select_input = "input2" then (v2, status)
      else (v1, status ++ " (回退到输入1)")
  | some v1, none =>
      if select_input = "input1" then (v1, status)
      else (v1, status ++ " (回退到输入1)")
  | none, some v2 =>
      if select_input = "input2" then (v2, status)
      else (v2, status ++ " (回退到输入2)")
  | none, none => ("", status ++ " (使用空字符串)")

end StringSwitch

namespace IntSwitch

/-- `IntSwitch.switch_int` (`utils.py` lines 364-382). -/
def switch_int (select_input : String) (input1 input2 : Option ℤ) : ℤ × String :=
  let status := "整数切换器: 选择 " ++ select_input
  match input1, input2 with
  | some v1, some v2 =>
      if select_input = "input1" then (v1, status)
      else if select_input = "input2" then (v2, status)
      else (v1, status ++ " (回退到输入1)")
  | some v1, none =>
      if select_input = "input1" then (v1, status)
      else (v1, status ++ " (回退到输入1)")
  | none, some v2 =>
      if select_input = "input2" then (v2, status)
      else (v2, status ++ " (回退到输入2)")
  | none, none => (0, status ++ " (使用默认值0)")

end IntSwitch

namespace FloatSwitch

/-- `FloatSwitch.switch_float` (`utils.py` lines 404-422). -/
def switch_float (select_input : String) (input1 input2 : Option ℚ) : ℚ × String :=
  let status := "浮点数切换器: 选择 " ++ select_input
  match input1, input2 with
  | some v1, some v2 =>
      if select_input = "input1" then (v1, status)
      else if select_input = "input2" then (v2, status)
      else (v1, status ++ " (回退到输入1)")
  | some v1, none =>
      if select_input = "input1" then (v1, status)
      else (v1, status ++ " (回退到输入1)")
  | none, some v2 =>
      if select_input = "input2" then (v2, status)
      else (v2, status ++ " (回退到输入2)")
  | none, none => (0, status ++ " (使用默认值0.0)")

end FloatSwitch

namespace BooleanSwitch

/-- `BooleanSwitch.switch_boolean` (`utils.py` lines 444-462). -/
def switch_boolean (select_input : String) (input1 input2 : Option Bool) : Bool × String :=
  let status := "布尔值切换器: 选择 " ++ select_input
  match input1, input2 with
  | some v1, some v2 =>
      if select_input = "input1" then (v1, status)
      else if select_input = "input2" then (v2, status)
      else (v1, status ++ " (回退到输入1)")
  | some v1, none =>
      if select_input = "input1" then (v1, status)
      else (v1, status ++ " (回退到输入1)")
  | none, some v2 =>
      if select_input = "input2" then (v2, status)
      else (v2, status ++ " (回退到输入2)")
  | none, none => (false, status ++ " (使用默认值False)")

end BooleanSwitch

/-- C7 spec-side selector, following the claim's words: "the value returned
is the selected input when it is not None, otherwise the other input when
it is not None, otherwise the type's fixed default". -/
def specSwitchValue {α : Type} (selected other : Option α) (dflt : α) : α :=
  match selected, other with
  | some v, _ => v
  | none, some w => w
  | none, none => dflt

/-! ## Claims C6, C7, C10 -/

/-- C6: `ImageSwitchManual.switch_images` returns image A when selected and
present, image B when selected and present, falls back to the other image
when the selected one is missing, and a fresh black `1x512x512x3` tensor
when both are missing; the image component is never `None` (its type here
is `Tensor`, not `Option Tensor`). -/
theorem C6_switch_images_cases (select_first : Bool) (image_A image_B : Option Tensor) :
    (∀ a, select_first = true → image_A = some a →
      (ImageSwitchManual.switch_images select_first image_A image_B).1 = a)
    ∧ (∀ b, select_first = false → image_B = some b →
      (ImageSwitchManual.switch_images select_first image_A image_B).1 = b)
    ∧ (∀ b, select_first = true → image_A = none → image_B = some b →
      (ImageSwitchManual.switch_images select_first image_A image_B).1 = b)
    ∧ (∀ a, select_first = false → image_B = none → image_A = some a →
      (ImageSwitchManual.switch_images select_first image_A image_B).1 = a)
    ∧ (image_A = none → image_B = none →
      (ImageSwitchManual.switch_images select_first image_A image_B).1 = tzeros [1, 512, 512, 3]) := by
  cases select_first <;> cases image_A <;> cases image_B <;>
    simp [ImageSwitchManual.switch_images]

/-- Witness for C6 at concrete inputs. -/
theorem C6_switch_images_witness :
    (ImageSwitchManual.switch_images true (some (tones [1, 2, 2, 3])) none).1 = tones [1, 2, 2, 3]
    ∧ (ImageSwitchManual.switch_images false none none).1 = tzeros [1, 512, 512, 3] :=
  ⟨(C6_switch_images_cases true (some (tones [1, 2, 2, 3])) none).1 _ rfl rfl,
    (C6_switch_images_cases false none none).2.2.2.2 rfl rfl⟩

/-- C7: each of the eight typed switches in `utils.py` returns the selected
input when connected, otherwise the other input when connected, otherwise
the type's fixed default (zero audio tensor, zero video tensor, zero-latent
dict, empty list, empty string, 0, 0.0, False); the value component is
never `None`. -/
theorem C7_typed_switches (i1 i2 v1 v2 : Option Tensor) (l1 l2 : Option Latent)
    (c1 c2 : Option Conditioning) (s1 s2 : Option String) (n1 n2 : Option ℤ)
    (f1 f2 : Option ℚ) (b1 b2 : Option Bool) :
    ((AudioSwitch.switch_audio "input1" i1 i2).1 = specSwitchValue i1 i2 (tzeros [1, 44100]))
    ∧ ((AudioSwitch.switch_audio "input2" i1 i2).1 = specSwitchValue i2 i1 (tzeros [1, 44100]))
    ∧ ((VideoSwitch.switch_video "input1" v1 v2).1 = specSwitchValue v1 v2 (tzeros [1, 64, 64, 3]))
    ∧ ((VideoSwitch.switch_video "input2" v1 v2).1 = specSwitchValue v2 v1 (tzeros [1, 64, 64, 3]))
    ∧ ((LatentSwitch.switch_latent "input1" l1 l2).1 = specSwitchValue l1 l2 ⟨tzeros [1, 4, 64, 64]⟩)
    ∧ ((LatentSwitch.switch_latent "input2" l1 l2).1 = specSwitchValue l2 l1 ⟨tzeros [1, 4, 64, 64]⟩)
    ∧ ((ConditioningSwitch.switch_conditioning "input1" c1 c2).1 = specSwitchValue c1 c2 [])
    ∧ ((ConditioningSwitch.switch_conditioning "input2" c1 c2).1 = specSwitchValue c2 c1 [])
    ∧ ((StringSwitch.switch_string "input1" s1 s2).1 = specSwitchValue s1 s2 "")
    ∧ ((StringSwitch.switch_string "input2" s1 s2).1 = specSwitchValue s2 s1 "")
    ∧ ((IntSwitch.switch_int "input1" n1 n2).1 = specSwitchValue n1 n2 0)
    ∧ ((IntSwitch.switch_int "input2" n1 n2).1 = specSwitchValue n2 n1 0)
    ∧ ((FloatSwitch.switch_float "input1" f1 f2).1 = specSwitchValue f1 f2 0)
    ∧ ((FloatSwitch.switch_float "input2" f1 f2).1 = specSwitchValue f2 f1 0)
    ∧ ((BooleanSwitch.switch_boolean "input1" b1 b2).1 = specSwitchValue b1 b2 false)
    ∧ ((BooleanSwitch.switch_boolean "input2" b1 b2).1 = specSwitchValue b2 b1 false) := by
  refine ⟨?_, ?_, ?_, ?_, ?_, ?_, ?_, ?_, ?_, ?_, ?_, ?_, ?_, ?_, ?_, ?_⟩
  · cases i1 <;> cases i2 <;> simp [AudioSwitch.switch_audio, specSwitchValue]
  · cases i1 <;> cases i2 <;> simp [AudioSwitch.switch_audio, specSwitchValue]
  · cases v1 <;> cases v2 <;> simp [VideoSwitch.switch_video, specSwitchValue]
  · cases v1 <;> cases v2 <;> simp [VideoSwitch.switch_video, specSwitchValue]
  · cases l1 <;> cases l2 <;> simp [LatentSwitch.switch_latent, specSwitchValue]
  · cases l1 <;> cases l2 <;> simp [LatentSwitch.switch_latent, specSwitchValue]
  · cases c1 <;> cases c2 <;> simp [ConditioningSwitch.switch_conditioning, specSwitchValue]
  · cases c1 <;> cases c2 <;> simp [ConditioningSwitch.switch_conditioning, specSwitchValue]
  · cases s1 <;> cases s2 <;> simp [StringSwitch.switch_string, specSwitchValue]
  · cases s1 <;> cases s2 <;> simp [StringSwitch.switch_string, specSwitchValue]
  · cases n1 <;> cases n2 <;> simp [IntSwitch.switch_int, specSwitchValue]
  · cases n1 <;> cases n2 <;> simp [IntSwitch.switch_int, specSwitchValue]
  · cases f1 <;> cases f2 <;> simp [FloatSwitch.switch_float, specSwitchValue]
  · cases f1 <;> cases f2 <;> simp [FloatSwitch.switch_float, specSwitchValue]
  · cases b1 <;> cases b2 <;> simp [BooleanSwitch.switch_boolean, specSwitchValue]
  · cases b1 <;> cases b2 <;> simp [BooleanSwitch.switch_boolean, specSwitchValue]

lemma zipWith_add_replicate_right (l : List ℚ) (n : Nat) (h : l.length ≤ n) :
    List.zipWith (· + ·) l (List.replicate n 0) = l := by
  induction l generalizing n with
  | nil => simp
  | cons x xs ih =>
      cases n with
      | zero => simp at h
      | succ m => simp [List.replicate_succ, ih m (by simpa using h)]

lemma zipWith_add_replicate_left (l : List ℚ) (n : Nat) (h : l.length ≤ n) :
    List.zipWith (· + ·) (List.replicate n 0) l = l := by
  induction l generalizing n with
  | nil => simp
  | cons x xs ih =>
      cases n with
      | zero => simp at h
      | succ m => simp [List.replicate_succ, ih m (by simpa using h)]

/-- C10: with both images present and of equal shape,
`ImageBlendSwitch.blend_images` with `use_blend=True` returns
`image_A * (1 - blend_factor) + image_B * blend_factor`; at the endpoints
`blend_factor = 0` and `blend_factor = 1` the result equals `image_A`
resp. `image_B`; with mismatched shapes it returns `image_A` unchanged. -/
theorem C10_blend_images (f : ℚ) (a b : Tensor) (hsh : a.shape = b.shape)
    (hdt : a.dtype = b.dtype) (hwa : a.wf) (hwb : b.wf) :
    ((ImageBlendSwitch.blend_images f true (some a) (some b)).1
        = tadd (tsmul (1 - f) a) (tsmul f b))
    ∧ ((ImageBlendSwitch.blend_images 0 true (some a) (some b)).1 = a)
    ∧ ((ImageBlendSwitch.blend_images 1 true (some a) (some b)).1 = b)
    ∧ (∀ a' b' : Tensor, a'.shape ≠ b'.shape →
        (ImageBlendSwitch.blend_images f true (some a') (some b')).1 = a') := by
  obtain ⟨as, ad, adata⟩ := a
  obtain ⟨bs, bd, bdata⟩ := b
  simp only [Tensor.wf] at hwa hwb
  dsimp only at hsh hdt hwa hwb
  subst hsh
  subst hdt
  have hlen : adata.length = bdata.length := by rw [hwa, hwb]
  refine ⟨?_, ?_, ?_, ?_⟩
  · simp [ImageBlendSwitch.blend_images]
  · simp [ImageBlendSwitch.blend_images, tadd, tsmul, Tensor.mapData,
      zipWith_add_replicate_right adata bdata.length (le_of_eq hlen)]
  · simp [ImageBlendSwitch.blend_images, tadd, tsmul, Tensor.mapData,
      zipWith_add_replicate_left bdata adata.length (le_of_eq hlen.symm)]
  · intro a' b' hne
    simp [ImageBlendSwitch.blend_images, hne]

/-- Witness for C10 at two concrete same-shaped tensors. -/
theorem C10_blend_images_witness :
    (ImageBlendSwitch.blend_images (1 / 2) true (some (tzeros [1, 1, 1, 3])) (some (tones [1, 1, 1, 3]))).1
        = tadd (tsmul (1 - 1 / 2) (tzeros [1, 1, 1, 3])) (tsmul (1 / 2) (tones [1, 1, 1, 3]))
    ∧ (ImageBlendSwitch.blend_images 0 true (some (tzeros [1, 1, 1, 3])) (some (tones [1, 1, 1, 3]))).1
        = tzeros [1, 1, 1, 3] :=
  have h := C10_blend_images (1 / 2) (tzeros [1, 1, 1, 3]) (tones [1, 1, 1, 3]) rfl rfl
    (by simp [Tensor.wf, tzeros]) (by simp [Tensor.wf, tones])
  ⟨h.1, h.2.1⟩

/-! ## `instant_preview_loader.py` — `InstantPreviewImageLoader`

The file system and PIL are abstracted into a `FileSys` record; `load`
returning `none` models any exception raised while opening or decoding an
image, `listdir` returning `none` models an exception while globbing,
`getmtime` returning `none` models an `os.path.getmtime` failure. -/

structure FileSys where
  pathExists : String → Bool
  isfile : String → Bool
  isdir : String → Bool
  getmtime : String → Option ℚ
  listdir : String → Option (List String)
  load : String → Option (Tensor × Tensor)
  loadErr : String → String
  imageInfo : String → String
  uploadFile : String → Option String
  annotated : String → String
  inputDir : String

/-- One entry of `self.cache`: the image and the final mask stored by
`_handle_monitor_mode` / `_load_and_process_image`. -/
structure CacheEntry where
  image : Tensor
  mask : Option Tensor

/-- One entry of `self.monitor_cache`. -/
structure MonitorEntry where
  files : List String
  timestamp : ℚ

/-- The mutable fields of `InstantPreviewImageLoader` (`__init__`). -/
structure LoaderState where
  cache : List (String × CacheEntry)
  monitor_cache : List (String × MonitorEntry)
  monitor_last_file : Option String
  monitor_last_time : ℚ
  last_refresh : ℤ
  last_auto_refresh : ℚ

namespace InstantPreviewImageLoader

/-- Python `str.strip()`; char-list based so that it evaluates in the
kernel. -/
def pyStrip (s : String) : String :=
  ⟨((s.data.dropWhile Char.isWhitespace).reverse.dropWhile Char.isWhitespace).reverse⟩

lemma pyStrip_data (s : String) :
    (pyStrip s).data
      = List.rdropWhile Char.isWhitespace (List.dropWhile Char.isWhitespace s.data) := rfl

/-- `str.strip()` is idempotent. -/
lemma pyStrip_idem (s : String) : pyStrip (pyStrip s) = pyStrip s := by
  have hdata : (pyStrip (pyStrip s)).data = (pyStrip s).data := by
    rw [pyStrip_data, pyStrip_data]
    have h1 : List.dropWhile Char.isWhitespace
        (List.rdropWhile Char.isWhitespace (List.dropWhile Char.isWhitespace s.data))
        = List.rdropWhile Char.isWhitespace (List.dropWhile Char.isWhitespace s.data) := by
      rw [List.dropWhile_eq_self_iff]
      intro hl
      have hpre := List.rdropWhile_prefix Char.isWhitespace
        (List.dropWhile Char.isWhitespace s.data)
      have hlen : 0 < (List.dropWhile Char.isWhitespace s.data).length :=
        lt_of_lt_of_le hl hpre.length_le
      have hget := List.IsPrefix.getElem hpre hl
      simp only [List.get_eq_getElem, hget]
      simpa using List.dropWhile_get_zero_not Char.isWhitespace s.data hlen
    rw [h1, List.rdropWhile_idempotent]
  exact congrArg String.mk hdata

/-- `str.endswith` / suffix test, char-list based. -/
def strEndsWith (s t : String) : Bool := t.data.isSuffixOf s.data

/-- `str.startswith` / prefix test, char-list based. -/
def strStartsWith (s t : String) : Bool := t.data.isPrefixOf s.data

/-- `str.lower()`, char-list based. -/
def strToLower (s : String) : String := ⟨s.data.map Char.toLower⟩

/-- `SUPPORTED_EXT` (`instant_preview_loader.py` line 24). -/
def SUPPORTED_EXT : List String :=
  [".png", ".jpg", ".jpeg", ".webp", ".bmp", ".tiff", ".tif", ".gif"]

/-- `os.path.basename` on POSIX paths: everything after the last slash. -/
def basename (p : String) : String := ⟨(p.data.reverse.takeWhile (· ≠ '/')).reverse⟩

/-- The extension part of `os.path.splitext` (leading dots of the base name
do not start an extension). -/
def splitextExt (p : String) : String :=
  let base := basename p
  let stripped := base.data.dropWhile (· == '.')
  if stripped.contains '.' then
    "." ++ String.mk ((stripped.reverse.takeWhile (· ≠ '.')).reverse)
  else ""

/-- Whether `glob.glob(os.path.join(dir, "*" + ext))` matches a path: the
base name ends with `ext` and, as `*` never matches a leading dot, is not a
hidden file. -/
def globMatches (p : String) (ext : String) : Bool :=
  !(strStartsWith (basename p) ".") && strEndsWith p ext

/-- Insert into a list kept in descending `key` order (used to model the
stable descending `files.sort(key=os.path.getmtime, reverse=True)`). -/
def insertByKeyDesc (key : String → ℚ) (x : String) : List String → List String
  | [] => [x]
  | y :: ys => if key y < key x then x :: y :: ys else y :: insertByKeyDesc key x ys

def sortByKeyDesc (key : String → ℚ) (l : List String) : List String :=
  l.foldl (fun acc x => insertByKeyDesc key x acc) []

/-- `InstantPreviewImageLoader._get_directory_files`
(`instant_preview_loader.py` lines 516-538). -/
def get_directory_files (fs : FileSys) (directory_path : String) (limit : Nat) : List String :=
  if ¬ fs.pathExists directory_path ∨ ¬ fs.isdir directory_path then []
  else
    match fs.listdir directory_path with
    | none => []
    | some entries =>
      let files := SUPPORTED_EXT.foldl
        (fun acc ext => acc ++ entries.filter (fun f => globMatches f ext)) []
      if files.all (fun f => (fs.getmtime f).isSome) then
        let sorted := sortByKeyDesc (fun f => (fs.getmtime f).getD 0) files
        if 0 < limit ∧ limit < sorted.length then sorted.take limit else sorted
      else []

/-! ### Sorting lemmas for C5 -/

lemma mem_insertByKeyDesc (key : String → ℚ) (x a : String) (l : List String) :
    a ∈ insertByKeyDesc key x l ↔ a = x ∨ a ∈ l := by
  induction l with
  | nil => simp [insertByKeyDesc]
  | cons y ys ih =>
      unfold insertByKeyDesc
      split_ifs <;> simp [ih] <;> tauto

lemma length_insertByKeyDesc (key : String → ℚ) (x : String) (l : List String) :
    (insertByKeyDesc key x l).length = l.length + 1 := by
  induction l with
  | nil => simp [insertByKeyDesc]
  | cons y ys ih =>
      unfold insertByKeyDesc
      split_ifs <;> simp [ih]

lemma pairwise_insertByKeyDesc (key : String → ℚ) (x : String) (l : List String)
    (hl : List.Pairwise (fun u v => key v ≤ key u) l) :
    List.Pairwise (fun u v => key v ≤ key u) (insertByKeyDesc key x l) := by
  induction l with
  | nil => simp [insertByKeyDesc]
  | cons y ys ih =>
      rw [List.pairwise_cons] at hl
      unfold insertByKeyDesc
      split_ifs with h
      · refine List.Pairwise.cons ?_ (List.Pairwise.cons hl.1 hl.2)
        intro z hz
        rcases List.mem_cons.mp hz with hz | hz
        · exact hz ▸ le_of_lt h
        · exact le_trans (hl.1 z hz) (le_of_lt h)
      · refine List.Pairwise.cons ?_ (ih hl.2)
        intro z hz
        rcases (mem_insertByKeyDesc key x z ys).mp hz with hz | hz
        · exact hz ▸ le_of_not_lt h
        · exact hl.1 z hz

lemma sortByKeyDesc_invariant (key : String → ℚ) (l acc : List String)
    (hacc : List.Pairwise (fun u v => key v ≤ key u) acc) :
    List.Pairwise (fun u v => key v ≤ key u) (l.foldl (fun acc x => insertByKeyDesc key x acc) acc)
    ∧ (∀ a, a ∈ l.foldl (fun acc x => insertByKeyDesc key x acc) acc → a ∈ acc ∨ a ∈ l)
    ∧ (l.foldl (fun acc x => insertByKeyDesc key x acc) acc).length = acc.length + l.length := by
  induction l generalizing acc with
  | nil => exact ⟨hacc, fun a ha => Or.inl ha, rfl⟩
  | cons x xs ih =>
      obtain ⟨h1, h2, h3⟩ := ih (insertByKeyDesc key x acc)
        (pairwise_insertByKeyDesc key x acc hacc)
      refine ⟨h1, ?_, ?_⟩
      · intro a ha
        rcases h2 a ha with h | h
        · rcases (mem_insertByKeyDesc key x a acc).mp h with h | h
          · exact Or.inr (by simp [h])
          · exact Or.inl h
        · exact Or.inr (List.mem_cons_of_mem x h)
      · simp only [List.foldl_cons, List.length_cons]
        rw [h3, length_insertByKeyDesc key x acc]
        omega

lemma sortByKeyDesc_pairwise (key : String → ℚ) (l : List String) :
    List.Pairwise (fun u v => key v ≤ key u) (sortByKeyDesc key l) :=
  (sortByKeyDesc_invariant key l [] (by simp)).1

lemma sortByKeyDesc_mem (key : String → ℚ) (l : List String) (a : String)
    (ha : a ∈ sortByKeyDesc key l) : a ∈ l := by
  rcases (sortByKeyDesc_invariant key l [] (by simp)).2.1 a ha with h | h
  · simp at h
  · exact h

lemma sortByKeyDesc_length (key : String → ℚ) (l : List String) :
    (sortByKeyDesc key l).length = l.length := by
  simpa using (sortByKeyDesc_invariant key l [] (by simp)).2.2

lemma mem_extFold (entries : List String) (exts : List String) (acc : List String) (f : String)
    (hf : f ∈ exts.foldl (fun acc ext => acc ++ entries.filter (fun g => globMatches g ext)) acc) :
    f ∈ acc ∨ ∃ ext ∈ exts, globMatches f ext = true := by
  induction exts generalizing acc with
  | nil => exact Or.inl hf
  | cons e es ih =>
      rcases ih _ hf with h | h
      · rcases List.mem_append.mp h with h | h
        · exact Or.inl h
        · exact Or.inr ⟨e, by simp, (List.mem_filter.mp h).2⟩
      · obtain ⟨ext, hext, hg⟩ := h
        exact Or.inr ⟨ext, List.mem_cons_of_mem e hext, hg⟩

end InstantPreviewImageLoader

open InstantPreviewImageLoader in
/-- C5: `_get_directory_files` returns only paths whose names end in one of
the supported image extensions, in descending modification-time order,
truncated to at most `limit` entries (for positive `limit`), and returns
the empty list when the path is missing, is not a directory, or listing
raises. -/
theorem C5_get_directory_files (fs : FileSys) (dir : String) (limit : Nat) (hl : 0 < limit) :
    (∀ f ∈ get_directory_files fs dir limit, ∃ ext ∈ SUPPORTED_EXT, strEndsWith f ext = true)
    ∧ List.Pairwise (fun u v => (fs.getmtime v).getD 0 ≤ (fs.getmtime u).getD 0)
        (get_directory_files fs dir limit)
    ∧ (get_directory_files fs dir limit).length ≤ limit
    ∧ ((¬ fs.pathExists dir = true ∨ ¬ fs.isdir dir = true ∨ fs.listdir dir = none) →
        get_directory_files fs dir limit = []) := by
  unfold get_directory_files
  by_cases hpd : ¬ fs.pathExists dir = true ∨ ¬ fs.isdir dir = true
  · simp only [if_pos hpd]
    exact ⟨by simp, by simp, by simp, fun _ => trivial⟩
  · simp only [if_neg hpd]
    match hls : fs.listdir dir with
    | none => exact ⟨by simp, by simp, by simp, fun _ => rfl⟩
    | some entries =>
        simp only []
        set key : String → ℚ := fun f => (fs.getmtime f).getD 0 with hkey
        set files := SUPPORTED_EXT.foldl
          (fun acc ext => acc ++ entries.filter (fun f => globMatches f ext)) [] with hfiles
        by_cases hall : files.all (fun f => (fs.getmtime f).isSome) = true
        · simp only [if_pos hall]
          set sorted := sortByKeyDesc key files with hsorted
          have hmemext : ∀ f, f ∈ sorted → ∃ ext ∈ SUPPORTED_EXT, strEndsWith f ext = true := by
            intro f hf
            have hmem := sortByKeyDesc_mem key files f hf
            rcases mem_extFold entries SUPPORTED_EXT [] f (hfiles ▸ hmem) with h | h
            · simp at h
            · obtain ⟨ext, hext, hg⟩ := h
              exact ⟨ext, hext, (Bool.and_eq_true _ _ |>.mp hg).2⟩
          have hpw := sortByKeyDesc_pairwise key files
          split_ifs with htr
          · refine ⟨?_, ?_, ?_, ?_⟩
            · intro f hf
              exact hmemext f (List.mem_of_mem_take hf)
            · exact List.Pairwise.sublist (List.take_sublist limit sorted) hpw
            · simp [List.length_take]
            · intro hcontra
              rcases hcontra with h | h | h
              · exact absurd (Or.inl h) hpd
              · exact absurd (Or.inr h) hpd
              · exact absurd h (by simp)
          · refine ⟨hmemext, hpw, ?_, ?_⟩
            · have : ¬ limit < sorted.length := fun hc => htr ⟨hl, hc⟩
              omega
            · intro hcontra
              rcases hcontra with h | h | h
              · exact absurd (Or.inl h) hpd
              · exact absurd (Or.inr h) hpd
              · exact absurd h (by simp)
        · simp only [if_neg hall]
          exact ⟨by simp, by simp, by simp, fun _ => trivial⟩

namespace InstantPreviewImageLoader

/-- `_create_empty_output` (`instant_preview_loader.py` lines 572-578):
black image, all-ones mask, error message. -/
def create_empty_output (error_message : String) : Option Tensor × Option Tensor × String :=
  (some (tzeros [1, 512, 512, 3]), some (tones [1, 512, 512]), error_message)

/-- `_validate_external_path` (lines 439-468). -/
def validate_external_path (fs : FileSys) (path mode : String) : Bool × String :=
  if pyStrip path = "" then (false, "❌ 路径不能为空")
  else
    let path := pyStrip path
    if mode = "upload" then
      if ¬ fs.pathExists path then (false, "❌ 文件不存在: " ++ path)
      else if ¬ fs.isfile path then (false, "❌ 路径不是文件: " ++ path)
      else if ¬ SUPPORTED_EXT.contains (strToLower (splitextExt path)) then
        (false, "❌ 不支持的图片格式: " ++ strToLower (splitextExt path))
      else (true, "✅ 文件路径有效: " ++ basename path)
    else if mode = "monitor" then
      if ¬ fs.pathExists path then (false, "❌ 目录不存在: " ++ path)
      else if ¬ fs.isdir path then (false, "❌ 路径不是目录: " ++ path)
      else (true, "✅ 目录路径有效: " ++ path)
    else (false, "❌ 未知的操作模式")

/-- `_process_external_mask` (lines 399-426). -/
def process_external_mask (original_mask external_mask : Option Tensor)
    (mask_operation : String) : Option Tensor :=
  match external_mask with
  | none => original_mask
  | some em =>
    let processed :=
      if em.shape.length = 3 then some em
      else if em.shape.length = 2 then some (em.unsqueeze 0)
      else original_mask
    if mask_operation = "使用外部遮罩" then processed
    else if mask_operation = "覆盖外部遮罩" then processed
    else if mask_operation = "忽略外部遮罩" then original_mask
    else original_mask

/-- `_get_mask_status` (lines 428-437). -/
def get_mask_status (external_mask : Option Tensor) (mask_operation : String) : String :=
  match external_mask with
  | some _ =>
      if mask_operation = "使用外部遮罩" then "🎭 使用外部遮罩输入"
      else if mask_operation = "覆盖外部遮罩" then "🎭 覆盖为外部遮罩"
      else if mask_operation = "忽略外部遮罩" then "🎭 忽略外部遮罩"
      else "🎭 使用原始遮罩"
  | none => "🎭 使用原始遮罩"

/-- `_load_external_image` (lines 502-514); `fs.load` failing models an
exception in `_load_image_improved`. -/
def load_external_image (fs : FileSys) (image_path : String) :
    Option Tensor × Option Tensor × String :=
  if ¬ fs.pathExists image_path then (none, none, "文件不存在")
  else
    match fs.load image_path with
    | some (image, mask) => (some image, some mask, fs.imageInfo image_path)
    | none => (none, none, "加载失败: " ++ fs.loadErr image_path)

/-- `_is_file_updated` (lines 246-258); its `current_time` argument is
unused in the source as well. -/
def is_file_updated (fs : FileSys) (st : LoaderState) (file_path : String)
    (_current_time : ℚ) : Bool :=
  if ¬ fs.pathExists file_path then false
  else
    match fs.getmtime file_path with
    | none => false
    | some mod_time => st.monitor_last_time < mod_time

/-- The directory-list refresh step of `_handle_monitor_mode` (lines 191-199);
returns the updated state and whether the monitor cache was refreshed. -/
def monitor_refresh_step (fs : FileSys) (st : LoaderState) (p : String) (load_limit : Nat)
    (needs_refresh : Bool) (current_time : ℚ) : LoaderState × Bool :=
  if needs_refresh ∨ (st.monitor_cache.lookup p).isNone then
    ({ st with monitor_cache :=
        (p, ⟨get_directory_files fs p load_limit, current_time⟩) :: st.monitor_cache }, true)
  else (st, false)

/-- The reload branch of `_handle_monitor_mode` (lines 215-239): load the
newest file, process the mask, update the image cache and monitor state. -/
def monitor_reload (fs : FileSys) (st : LoaderState) (cache_key latest_file : String)
    (cache_policy : String) (external_mask : Option Tensor) (mask_operation : String)
    (status_info : List String) (current_time : ℚ) :
    (Option Tensor × Option Tensor × String) × LoaderState :=
  match load_external_image fs latest_file with
  | (none, _, _) => (create_empty_output ("无法加载图片: " ++ latest_file), st)
  | (some image, mask, file_info) =>
    let final_mask := process_external_mask mask external_mask mask_operation
    let status_info := status_info ++ [get_mask_status external_mask mask_operation]
    let st := if cache_policy ≠ "禁用缓存" then
        { st with cache := (cache_key, ⟨image, final_mask⟩) :: st.cache }
      else st
    let st := { st with monitor_last_file := some latest_file, monitor_last_time := current_time }
    let status_info := status_info ++
      ["✅ 已加载最新图片: " ++ basename latest_file, file_info]
    ((some image, final_mask, String.intercalate "\n" status_info), st)

/-- `_handle_monitor_mode` (lines 177-244). -/
def handle_monitor_mode (fs : FileSys) (st : LoaderState) (external_path : String)
    (load_limit : Nat) (cache_policy : String) (external_mask : Option Tensor)
    (mask_operation : String) (status_info : List String) (needs_refresh : Bool)
    (current_time : ℚ) : (Option Tensor × Option Tensor × String) × LoaderState :=
  if pyStrip external_path = "" then (create_empty_output "请提供要监控的目录路径", st)
  else
    let p := pyStrip external_path
    let v := validate_external_path fs p "monitor"
    let status_info := status_info ++ [v.2]
    if ¬ v.1 then (create_empty_output ("路径验证失败: " ++ v.2), st)
    else
      let sr := monitor_refresh_step fs st p load_limit needs_refresh current_time
      let st := sr.1
      let status_info := if sr.2 then
          status_info ++ ["🔄 目录文件列表已刷新 (限制: " ++ toString load_limit ++ "个文件)"]
        else status_info
      match ((st.monitor_cache.lookup p).getD ⟨[], 0⟩).files with
      | [] => (create_empty_output "监控目录中没有图片文件", st)
      | latest_file :: _ =>
        let cache_key := "monitor_" ++ latest_file
        if needs_refresh ∨ some latest_file ≠ st.monitor_last_file
            ∨ is_file_updated fs st latest_file current_time
            ∨ cache_policy = "始终刷新" ∨ (st.cache.lookup cache_key).isNone then
          monitor_reload fs st cache_key latest_file cache_policy external_mask
            mask_operation status_info current_time
        else
          let status_info := status_info ++ ["使用缓存图片: " ++ basename latest_file]
          let cached := (st.cache.lookup cache_key).getD ⟨tzeros [1, 512, 512, 3], none⟩
          ((some cached.image, cached.mask, String.intercalate "\n" status_info), st)

/-- `_load_and_process_image` (lines 281-308). -/
def load_and_process_image (fs : FileSys) (st : LoaderState) (image_path image_name : String)
    (cache_policy : String) (external_mask : Option Tensor) (mask_operation : String)
    (status_info : List String) (_needs_refresh : Bool) :
    (Option Tensor × Option Tensor × String) × LoaderState :=
  match fs.load image_path with
  | none => (create_empty_output ("加载图片失败: " ++ fs.loadErr image_path), st)
  | some (image, mask) =>
    let final_mask := process_external_mask (some mask) external_mask mask_operation
    let status_info := status_info ++ [get_mask_status external_mask mask_operation]
    let cache_key := "preview_" ++ image_name
    let st := if cache_policy ≠ "禁用缓存" then
        { st with cache := (cache_key, ⟨image, final_mask⟩) :: st.cache }
      else st
    let status_info := status_info ++
      ["✅ 成功加载: " ++ image_name, fs.imageInfo image_path]
    ((some image, final_mask, String.intercalate "\n" status_info), st)

/-- `_handle_upload_mode` (lines 152-175); `fs.uploadFile` models
`_upload_external_image` (lines 470-500), whose result is `None` on any
failure. -/
def handle_upload_mode (fs : FileSys) (st : LoaderState) (external_path : String)
    (cache_policy : String) (external_mask : Option Tensor) (mask_operation : String)
    (status_info : List String) (needs_refresh : Bool) :
    (Option Tensor × Option Tensor × String) × LoaderState :=
  if pyStrip external_path = "" then (create_empty_output "请提供要上传的文件路径", st)
  else
    let p := pyStrip external_path
    let v := validate_external_path fs p "upload"
    let status_info := status_info ++ [v.2]
    if ¬ v.1 then (create_empty_output ("路径验证失败: " ++ v.2), st)
    else
      match fs.uploadFile p with
      | none => (create_empty_output "文件上传失败", st)
      | some uploaded_file =>
        let status_info := status_info ++ ["✅ 成功上传: " ++ uploaded_file]
        load_and_process_image fs st (fs.inputDir ++ "/" ++ uploaded_file) uploaded_file
          cache_policy external_mask mask_operation status_info needs_refresh

/-- `_handle_preview_mode` (lines 260-279). -/
def handle_preview_mode (fs : FileSys) (st : LoaderState) (image : String)
    (cache_policy : String) (external_mask : Option Tensor) (mask_operation : String)
    (status_info : List String) (needs_refresh : Bool) :
    (Option Tensor × Option Tensor × String) × LoaderState :=
  if image = "" then (create_empty_output "未选择图片文件", st)
  else
    let image_path := fs.annotated image
    if ¬ fs.pathExists image_path then
      (create_empty_output ("图片文件不存在: " ++ image), st)
    else
      let cache_key := "preview_" ++ image
      if (st.cache.lookup cache_key).isSome ∧ ¬ needs_refresh ∧ cache_policy ≠ "始终刷新" then
        let cached := (st.cache.lookup cache_key).getD ⟨tzeros [1, 512, 512, 3], none⟩
        ((some cached.image, cached.mask,
          String.intercalate "\n" (status_info ++ ["使用缓存图片"])), st)
      else
        load_and_process_image fs st image_path image cache_policy external_mask
          mask_operation status_info needs_refresh

/-- Friendly interval description built by `_check_refresh_conditions`
(lines 129-136). -/
def timeDesc (auto_refresh : ℤ) : String :=
  if auto_refresh < 60 then toString auto_refresh ++ "秒"
  else
    let minutes := auto_refresh / 60
    let seconds := auto_refresh % 60
    if 0 < seconds then toString minutes ++ "分" ++ toString seconds ++ "秒"
    else toString minutes ++ "分钟"

/-- `_check_refresh_conditions` (lines 117-138). -/
def check_refresh_conditions (st : LoaderState) (refresh_control auto_refresh : ℤ)
    (current_time : ℚ) (status_info : List String) : Bool × LoaderState × List String :=
  let r :=
    if refresh_control ≠ st.last_refresh then
      (true, { st with last_refresh := refresh_control }, status_info ++ ["🔄 手动刷新已触发"])
    else (false, st, status_info)
  if 0 < auto_refresh ∧ (auto_refresh : ℚ) ≤ current_time - r.2.1.last_auto_refresh then
    (true, { r.2.1 with last_auto_refresh := current_time },
      r.2.2 ++ ["⏰ 自动刷新 (" ++ timeDesc auto_refresh ++ ")"])
  else r

/-- `_handle_cache_policy` (lines 140-150); the local `needs_refresh = True`
rebinding in the Python source does not escape the function and is dropped. -/
def handle_cache_policy (st : LoaderState) (cache_policy : String)
    (_needs_refresh : Bool) (status_info : List String) : LoaderState × List String :=
  if cache_policy = "始终刷新" then (st, status_info ++ ["💾 缓存策略: 始终刷新"])
  else if cache_policy = "禁用缓存" then
    ({ st with cache := [], monitor_cache := [] }, status_info ++ ["💾 缓存策略: 禁用缓存"])
  else (st, status_info ++ ["💾 缓存策略: 智能缓存"])

/-- `load_image` (lines 92-115); parameter names transliterate the Chinese
ones (`图片文件` = imageFile, `操作模式` = mode, `外部路径` = externalPath,
`刷新控制` = refreshControl, `自动刷新间隔` = autoRefresh,
`加载限制` = loadLimit, `缓存策略` = cachePolicy,
`外部遮罩输入` = externalMask, `遮罩操作` = maskOp). -/
def load_image (fs : FileSys) (st : LoaderState) (imageFile mode externalPath : String)
    (refreshControl autoRefresh : ℤ) (loadLimit : Nat) (cachePolicy : String)
    (externalMask : Option Tensor) (maskOp : String) (current_time : ℚ) :
    (Option Tensor × Option Tensor × String) × LoaderState :=
  let c := check_refresh_conditions st refreshControl autoRefresh current_time []
  let needs_refresh := c.1
  let h := handle_cache_policy c.2.1 cachePolicy needs_refresh c.2.2
  let st := h.1
  let status_info := h.2
  if mode = "上传模式" then
    handle_upload_mode fs st externalPath cachePolicy externalMask maskOp status_info needs_refresh
  else if mode = "目录监控模式" then
    handle_monitor_mode fs st externalPath loadLimit cachePolicy externalMask maskOp
      status_info needs_refresh current_time
  else
    handle_preview_mode fs st imageFile cachePolicy externalMask maskOp status_info needs_refresh

/-- The status-message list of `_handle_monitor_mode` after the validation
and directory-refresh messages (proof-side abbreviation). -/
def monitor_status (fs : FileSys) (st : LoaderState) (p : String) (loadLimit : Nat)
    (needs_refresh : Bool) (now : ℚ) (status_info : List String) : List String :=
  let status1 := status_info ++ [(validate_external_path fs p "monitor").2]
  if (monitor_refresh_step fs st p loadLimit needs_refresh now).2 then
    status1 ++ ["🔄 目录文件列表已刷新 (限制: " ++ toString loadLimit ++ "个文件)"]
  else status1

lemma monitor_refresh_step_preserves (fs : FileSys) (st : LoaderState) (p : String)
    (n : Nat) (b : Bool) (now : ℚ) :
    (monitor_refresh_step fs st p n b now).1.cache = st.cache
    ∧ (monitor_refresh_step fs st p n b now).1.monitor_last_file = st.monitor_last_file
    ∧ (monitor_refresh_step fs st p n b now).1.monitor_last_time = st.monitor_last_time := by
  unfold monitor_refresh_step
  split_ifs <;> simp

end InstantPreviewImageLoader

open InstantPreviewImageLoader in
/-- C1: in directory-monitor mode, on a valid directory with a non-empty
file listing, `_handle_monitor_mode` reloads the newest file from disk
exactly when a refresh was triggered, the newest file differs from the
previously loaded one, its mtime is newer than the recorded last-load time,
the cache policy is "always refresh", or the cache has no entry for it;
otherwise it returns the cached image and mask unchanged.  `_is_file_updated`
returns `true` iff the file exists and its mtime exceeds
`monitor_last_time`, and `false` when the file is missing or the mtime
check raises. -/
theorem C1_monitor_mode (fs : FileSys) (st : LoaderState)
    (externalPath cachePolicy maskOp : String) (externalMask : Option Tensor)
    (status_info : List String) (needs_refresh : Bool) (loadLimit : Nat) (now : ℚ)
    (latest : String) (rest : List String)
    (hp : pyStrip externalPath ≠ "")
    (he : fs.pathExists (pyStrip externalPath) = true)
    (hd : fs.isdir (pyStrip externalPath) = true)
    (hfiles : (((monitor_refresh_step fs st (pyStrip externalPath) loadLimit needs_refresh
        now).1.monitor_cache.lookup (pyStrip externalPath)).getD ⟨[], 0⟩).files = latest :: rest) :
    ((needs_refresh = true ∨ some latest ≠ st.monitor_last_file
        ∨ is_file_updated fs st latest now = true
        ∨ cachePolicy = "始终刷新"
        ∨ (st.cache.lookup ("monitor_" ++ latest)).isNone = true) →
      handle_monitor_mode fs st externalPath loadLimit cachePolicy externalMask maskOp
          status_info needs_refresh now
        = monitor_reload fs
            (monitor_refresh_step fs st (pyStrip externalPath) loadLimit needs_refresh now).1
            ("monitor_" ++ latest) latest cachePolicy externalMask maskOp
            (monitor_status fs st (pyStrip externalPath) loadLimit needs_refresh now status_info) now)
    ∧ (¬ (needs_refresh = true ∨ some latest ≠ st.monitor_last_file
        ∨ is_file_updated fs st latest now = true
        ∨ cachePolicy = "始终刷新"
        ∨ (st.cache.lookup ("monitor_" ++ latest)).isNone = true) →
      ∃ e, st.cache.lookup ("monitor_" ++ latest) = some e ∧
        (handle_monitor_mode fs st externalPath loadLimit cachePolicy externalMask maskOp
            status_info needs_refresh now).1
          = (some e.image, e.mask, String.intercalate "\n"
              ((monitor_status fs st (pyStrip externalPath) loadLimit needs_refresh now status_info)
                ++ ["使用缓存图片: " ++ basename latest])))
    ∧ (∀ f, is_file_updated fs st f now = true ↔
        (fs.pathExists f = true ∧ ∃ m, fs.getmtime f = some m ∧ st.monitor_last_time < m)) := by
  have hpres := monitor_refresh_step_preserves fs st (pyStrip externalPath) loadLimit needs_refresh now
  have hupd : is_file_updated fs
      (monitor_refresh_step fs st (pyStrip externalPath) loadLimit needs_refresh now).1 latest now
      = is_file_updated fs st latest now := by
    unfold is_file_updated
    rw [hpres.2.2]
  have hval : validate_external_path fs (pyStrip externalPath) "monitor"
      = (true, "✅ 目录路径有效: " ++ pyStrip externalPath) := by
    unfold validate_external_path
    rw [pyStrip_idem]
    simp [hp, he, hd]
  have hmain : handle_monitor_mode fs st externalPath loadLimit cachePolicy externalMask maskOp
      status_info needs_refresh now
      = if (needs_refresh = true ∨ some latest ≠ st.monitor_last_file
            ∨ is_file_updated fs st latest now = true
            ∨ cachePolicy = "始终刷新"
            ∨ (st.cache.lookup ("monitor_" ++ latest)).isNone = true) then
          monitor_reload fs
            (monitor_refresh_step fs st (pyStrip externalPath) loadLimit needs_refresh now).1
            ("monitor_" ++ latest) latest cachePolicy externalMask maskOp
            (monitor_status fs st (pyStrip externalPath) loadLimit needs_refresh now status_info) now
        else
          ((some ((st.cache.lookup ("monitor_" ++ latest)).getD
              ⟨tzeros [1, 512, 512, 3], none⟩).image,
            ((st.cache.lookup ("monitor_" ++ latest)).getD
              ⟨tzeros [1, 512, 512, 3], none⟩).mask,
            String.intercalate "\n"
              ((monitor_status fs st (pyStrip externalPath) loadLimit needs_refresh now status_info)
                ++ ["使用缓存图片: " ++ basename latest])),
            (monitor_refresh_step fs st (pyStrip externalPath) loadLimit needs_refresh now).1) := by
    unfold handle_monitor_mode
    rw [if_neg hp]
    dsimp only
    rw [hval]
    dsimp only
    rw [if_neg (by simp)]
    rw [hfiles]
    dsimp only [monitor_status]
    rw [hval, hpres.1, hpres.2.1, hupd]
  refine ⟨?_, ?_, ?_⟩
  · intro hcond
    rw [hmain, if_pos hcond]
  · intro hcond
    have hsome : (st.cache.lookup ("monitor_" ++ latest)).isSome = true := by
      rcases h : st.cache.lookup ("monitor_" ++ latest) with _ | e
      · exact absurd (Or.inr (Or.inr (Or.inr (Or.inr (by simp [h]))))) hcond
      · simp
    obtain ⟨e, he'⟩ := Option.isSome_iff_exists.mp hsome
    refine ⟨e, he', ?_⟩
    rw [hmain, if_neg hcond]
    simp [he']
  · intro f
    unfold is_file_updated
    constructor
    · intro h
      by_cases hex : fs.pathExists f = true
      · refine ⟨hex, ?_⟩
        rw [if_neg (by simp [hex])] at h
        rcases hm : fs.getmtime f with _ | m
        · rw [hm] at h; simp at h
        · rw [hm] at h
          exact ⟨m, rfl, by simpa using h⟩
      · rw [if_pos (by simpa using hex)] at h
        simp at h
    · rintro ⟨hex, m, hm, hlt⟩
      rw [if_neg (by simp [hex]), hm]
      simpa using hlt

/-- Concrete file system used by witnesses: one monitored directory `/d`
holding one image `/d/a.png`. -/
def wfs : FileSys :=
  ⟨fun p => p == "/d" || p == "/d/a.png", fun p => p == "/d/a.png", fun p => p == "/d",
    fun p => if p == "/d/a.png" then some 5 else none,
    fun p => if p == "/d" then some ["/d/a.png"] else none,
    fun p => if p == "/d/a.png" then some (tones [1, 1, 1, 3], tones [1, 1, 1]) else none,
    fun _ => "err", fun _ => "info", fun _ => none, fun p => p, "/in"⟩

/-- Fresh loader state used by witnesses. -/
def wst : LoaderState := ⟨[], [], none, 0, 0, 0⟩

open InstantPreviewImageLoader in
/-- Witness for C1: on the fresh state the newest file differs from the
(absent) previously loaded file, so monitor mode takes the reload branch. -/
theorem C1_monitor_mode_witness :
    handle_monitor_mode wfs wst "/d" 10 "智能缓存" none "使用外部遮罩" [] false 7
      = monitor_reload wfs (monitor_refresh_step wfs wst (pyStrip "/d") 10 false 7).1
          ("monitor_" ++ "/d/a.png") "/d/a.png" "智能缓存" none "使用外部遮罩"
          (monitor_status wfs wst (pyStrip "/d") 10 false 7 []) 7 :=
  (C1_monitor_mode wfs wst "/d" "智能缓存" "使用外部遮罩" none [] false 10 7 "/d/a.png" []
    (by decide) (by decide) (by decide) (by decide)).1
    (Or.inr (Or.inl (by decide)))

open InstantPreviewImageLoader in
/-- Witness for C5 at a concrete two-file directory with `limit = 1`. -/
theorem C5_get_directory_files_witness :
    (get_directory_files
        ⟨fun p => p = "/d" ∨ p = "/d/a.png" ∨ p = "/d/b.png", fun p => p ≠ "/d",
          fun p => p = "/d", fun p => if p = "/d/a.png" then some 2 else some 1,
          fun p => if p = "/d" then some ["/d/b.png", "/d/a.png"] else none,
          fun _ => none, fun _ => "", fun _ => "", fun _ => none, fun p => p, "/in"⟩
        "/d" 1).length ≤ 1 :=
  (C5_get_directory_files _ "/d" 1 (by decide)).2.2.1

/-! ## `vae_optimizer.py` — `VAEDecoderOptimizer.optimized_decode` -/

/-- The CUDA environment read by `optimized_decode` (availability and the
memory figures printed into the status line). -/
structure CudaEnv where
  cudaAvailable : Bool
  memBefore : ℚ
  memAfter : ℚ

/-- A VAE object: `decode` / `decode_tiled` returning `Except.error` models
an exception raised during decoding. -/
structure VAEModel where
  hasDecodeTiled : Bool
  decode : Tensor → Except String Tensor
  decodeTiled : Tensor → Nat → Except String Tensor

namespace VAEDecoderOptimizer

/-- `VAEDecoderOptimizer.optimized_decode` (`vae_optimizer.py` lines
59-147): memory setup, decode (tiled or standard), output compatibility
processing; on any decoding exception the compatible fallback image is
returned together with the status string. -/
def optimized_decode (env : CudaEnv) (samples : Latent) (vae : VAEModel)
    (use_tiled_decoding : Bool) (tile_size : Nat)
    (memory_efficient ensure_float32 normalize_output fix_tensor_shape debug_output : Bool) :
    Tensor × String :=
  let status : List String := if debug_output then ["🚀 开始 VAE 解码优化处理"] else []
  let status := if memory_efficient ∧ debug_output then status ++ ["✅ 内存优化已启用"] else status
  let status := if env.cudaAvailable ∧ debug_output then
      status ++ ["🧹 GPU缓存已清理: " ++ toString env.memBefore ++ "GB → "
        ++ toString env.memAfter ++ "GB"]
    else status
  let tiled := use_tiled_decoding ∧ vae.hasDecodeTiled
  let status := if debug_output then
      status ++ (if tiled then ["🔲 使用分块解码 (分块大小: " ++ toString tile_size ++ ")"]
        else ["⚡ 使用标准解码"])
    else status
  let r :=
    match (if tiled then vae.decodeTiled samples.samples tile_size
           else vae.decode samples.samples) with
    | Except.error e =>
        (create_compatible_fallback_image,
          status ++ ["❌ VAE 解码失败: " ++ e, "🔄 使用备用兼容图像"])
    | Except.ok image0 =>
        let status := if debug_output then
            status ++ ["📊 解码后: " ++ toString image0.shape] else status
        let image := ensure_compatible_output image0 ensure_float32 normalize_output
          fix_tensor_shape
        let status := if env.cudaAvailable ∧ debug_output then
            status ++ ["🧹 解码后缓存已清理"] else status
        let status := if debug_output then
            status ++ ["✅ 解码成功 - 输出: " ++ toString image.shape] else status
        (image, status)
  let status := if r.2 = [] then ["ℹ️ 解码完成（调试输出已禁用）"] else r.2
  (r.1, String.intercalate " | " status)

end VAEDecoderOptimizer

namespace InstantPreviewImageLoader

lemma check_refresh_conditions_cache (st : LoaderState) (rc ar : ℤ) (t : ℚ)
    (si : List String) : (check_refresh_conditions st rc ar t si).2.1.cache = st.cache := by
  unfold check_refresh_conditions
  dsimp only
  split_ifs <;> rfl

lemma handle_cache_policy_cache_empty (st : LoaderState) (cp : String) (b : Bool)
    (si : List String) (h : st.cache = []) : (handle_cache_policy st cp b si).1.cache = [] := by
  unfold handle_cache_policy
  split_ifs <;> simp [h]

end InstantPreviewImageLoader

open InstantPreviewImageLoader VAEDecoderOptimizer in
/-- C4: every failure path substitutes a blank/default output instead of
raising: the failing `load_image` inputs (empty external path, invalid
path, failed upload, missing or unloadable image file) all return
`_create_empty_output`, which is a black `1x512x512x3` float32 image, an
all-ones `1x512x512` float32 mask and the error-message string; and when
decoding raises inside `optimized_decode` the result image is the black
`1x512x512x3` float32 fallback, with no exception escaping (the functions
are total). -/
theorem C4_failure_defaults :
    (∀ fs st imageFile externalPath rc ar ll cp em mo t,
      pyStrip externalPath = "" →
      (load_image fs st imageFile "上传模式" externalPath rc ar ll cp em mo t).1
        = create_empty_output "请提供要上传的文件路径")
    ∧ (∀ (env : CudaEnv) (samples : Latent) (vae : VAEModel) (uts : Bool) (ts : Nat)
        (me ef no fts dbg : Bool) (e : String),
      (if uts ∧ vae.hasDecodeTiled then vae.decodeTiled samples.samples ts
        else vae.decode samples.samples) = Except.error e →
      (optimized_decode env samples vae uts ts me ef no fts dbg).1
        = create_compatible_fallback_image)
    ∧ (∀ msg, create_empty_output msg
        = (some (tzeros [1, 512, 512, 3]), some (tones [1, 512, 512]), msg))
    ∧ (tzeros [1, 512, 512, 3]).dtype = DType.float32
    ∧ (tzeros [1, 512, 512, 3]).shape = [1, 512, 512, 3]
    ∧ (∀ x ∈ (tzeros [1, 512, 512, 3]).data, x = 0)
    ∧ (tones [1, 512, 512]).dtype = DType.float32
    ∧ (tones [1, 512, 512]).shape = [1, 512, 512]
    ∧ (∀ x ∈ (tones [1, 512, 512]).data, x = 1)
    ∧ (∀ fs st imageFile externalPath rc ar ll cp em mo t,
      pyStrip externalPath ≠ "" →
      fs.pathExists (pyStrip externalPath) = false →
      (load_image fs st imageFile "上传模式" externalPath rc ar ll cp em mo t).1
        = create_empty_output
            ("路径验证失败: " ++ ("❌ 文件不存在: " ++ pyStrip externalPath)))
    ∧ (∀ fs st imageFile externalPath rc ar ll cp em mo t,
      pyStrip externalPath ≠ "" →
      fs.pathExists (pyStrip externalPath) = true →
      fs.isfile (pyStrip externalPath) = true →
      SUPPORTED_EXT.contains (strToLower (splitextExt (pyStrip externalPath))) = true →
      fs.uploadFile (pyStrip externalPath) = none →
      (load_image fs st imageFile "上传模式" externalPath rc ar ll cp em mo t).1
        = create_empty_output "文件上传失败")
    ∧ (∀ fs st externalPath rc ar ll cp em mo t,
      (load_image fs st "" "预览模式" externalPath rc ar ll cp em mo t).1
        = create_empty_output "未选择图片文件")
    ∧ (∀ fs st imageFile externalPath rc ar ll cp em mo t,
      imageFile ≠ "" →
      fs.pathExists (fs.annotated imageFile) = false →
      (load_image fs st imageFile "预览模式" externalPath rc ar ll cp em mo t).1
        = create_empty_output ("图片文件不存在: " ++ imageFile))
    ∧ (∀ fs st imageFile externalPath rc ar ll cp em mo t,
      st.cache = [] →
      imageFile ≠ "" →
      fs.pathExists (fs.annotated imageFile) = true →
      fs.load (fs.annotated imageFile) = none →
      (load_image fs st imageFile "预览模式" externalPath rc ar ll cp em mo t).1
        = create_empty_output ("加载图片失败: " ++ fs.loadErr (fs.annotated imageFile)))
    ∧ (∀ fs st imageFile externalPath rc ar ll cp em mo t,
      pyStrip externalPath = "" →
      (load_image fs st imageFile "目录监控模式" externalPath rc ar ll cp em mo t).1
        = create_empty_output "请提供要监控的目录路径")
    ∧ create_compatible_fallback_image.dtype = DType.float32
    ∧ create_compatible_fallback_image.shape = [1, 512, 512, 3]
    ∧ (∀ x ∈ create_compatible_fallback_image.data, x = 0) := by
  refine ⟨?_, ?_, fun msg => rfl, rfl, rfl, ?_, rfl, rfl, ?_, ?_, ?_, ?_, ?_, ?_, ?_, rfl, rfl, ?_⟩
  · intro fs st imageFile externalPath rc ar ll cp em mo t hempty
    unfold load_image
    dsimp only
    rw [if_pos rfl]
    unfold handle_upload_mode
    rw [if_pos hempty]
  · intro env samples vae uts ts me ef no fts dbg e herr
    unfold optimized_decode
    dsimp only
    rw [herr]
  · intro x hx
    simpa [tzeros] using List.eq_of_mem_replicate hx
  · intro x hx
    simpa [tones] using List.eq_of_mem_replicate hx
  · intro fs st imageFile externalPath rc ar ll cp em mo t hne hnex
    have hval : validate_external_path fs (pyStrip externalPath) "upload"
        = (false, "❌ 文件不存在: " ++ pyStrip externalPath) := by
      unfold validate_external_path
      rw [pyStrip_idem]
      simp [hne, hnex]
    unfold load_image
    dsimp only
    rw [if_pos rfl]
    unfold handle_upload_mode
    rw [if_neg hne]
    dsimp only
    rw [hval]
    dsimp only
    rw [if_pos (by simp)]
  · intro fs st imageFile externalPath rc ar ll cp em mo t hne hex hisf hext hup
    have hval : validate_external_path fs (pyStrip externalPath) "upload"
        = (true, "✅ 文件路径有效: " ++ basename (pyStrip externalPath)) := by
      have hext' : strToLower (splitextExt (pyStrip externalPath)) ∈ SUPPORTED_EXT := by
        simpa using hext
      unfold validate_external_path
      rw [pyStrip_idem]
      simp [hne, hex, hisf, hext']
    unfold load_image
    dsimp only
    rw [if_pos rfl]
    unfold handle_upload_mode
    rw [if_neg hne]
    dsimp only
    rw [hval]
    dsimp only
    rw [if_neg (by simp)]
    rw [hup]
  · intro fs st externalPath rc ar ll cp em mo t
    unfold load_image
    dsimp only
    rw [if_neg (by decide), if_neg (by decide)]
    unfold handle_preview_mode
    rw [if_pos rfl]
  · intro fs st imageFile externalPath rc ar ll cp em mo t hne hnex
    unfold load_image
    dsimp only
    rw [if_neg (by decide), if_neg (by decide)]
    unfold handle_preview_mode
    rw [if_neg hne]
    dsimp only
    rw [if_pos (by simp [hnex])]
  · intro fs st imageFile externalPath rc ar ll cp em mo t hcache hne hex hload
    unfold load_image
    dsimp only
    rw [if_neg (by decide), if_neg (by decide)]
    have hc : (handle_cache_policy (check_refresh_conditions st rc ar t []).2.1 cp
        (check_refresh_conditions st rc ar t []).1 (check_refresh_conditions st rc ar t []).2.2).1.cache
        = [] :=
      handle_cache_policy_cache_empty _ cp _ _
        ((check_refresh_conditions_cache st rc ar t []).trans hcache)
    unfold handle_preview_mode
    rw [if_neg hne]
    dsimp only
    rw [if_neg (by simp [hex])]
    rw [if_neg (by simp [hc])]
    unfold load_and_process_image
    rw [hload]
  · intro fs st imageFile externalPath rc ar ll cp em mo t hempty
    unfold load_image
    dsimp only
    rw [if_neg (by decide), if_pos rfl]
    unfold handle_monitor_mode
    rw [if_pos hempty]
  · intro x hx
    simpa [create_compatible_fallback_image, tzeros] using List.eq_of_mem_replicate hx

open InstantPreviewImageLoader VAEDecoderOptimizer in
/-- Witness for C4: the empty upload path and a decode failure at concrete
inputs both yield the default outputs. -/
theorem C4_failure_defaults_witness :
    (load_image wfs wst "" "上传模式" "" 0 0 10 "智能缓存" none "使用外部遮罩" 1).1
      = create_empty_output "请提供要上传的文件路径"
    ∧ (optimized_decode ⟨false, 0, 0⟩ ⟨tzeros [1, 4, 8, 8]⟩
        ⟨false, fun _ => Except.error "decode failure", fun _ _ => Except.error "decode failure"⟩
        false 512 true true true true false).1
      = create_compatible_fallback_image :=
  ⟨C4_failure_defaults.1 wfs wst "" "" 0 0 10 "智能缓存" none "使用外部遮罩" 1 (by decide),
    C4_failure_defaults.2.1 ⟨false, 0, 0⟩ ⟨tzeros [1, 4, 8, 8]⟩
      ⟨false, fun _ => Except.error "decode failure", fun _ _ => Except.error "decode failure"⟩
      false 512 true true true true false "decode failure" (by simp)⟩

/-! ## `model_unloader_io.py` — `UniversalModelUnloaderWithIO` -/

/-- Opaque handle for VAE/CLIP/MODEL/CONTROL_NET/UPSCALE_MODEL objects that
the node only passes through. -/
structure ModelHandle where
  id : Nat
deriving DecidableEq

/-- The fourteen unload-control parameters of `process_with_unload`. -/
structure UnloadParams where
  trigger_unload : Bool
  unload_mode : String
  force_garbage_collect : Bool
  clear_cuda_cache : Bool
  unload_vae_models : Bool
  unload_clip_models : Bool
  unload_unet_models : Bool
  unload_controlnet_models : Bool
  unload_upscale_models : Bool
  unload_face_models : Bool
  unload_segment_models : Bool
  unload_depth_models : Bool
  unload_other_models : Bool
  debug_output : Bool

/-- The optional kwargs of `process_with_unload` (`kwargs.get(..., None)`). -/
structure IOKwargs where
  image_input : Option Tensor
  latent_input : Option Latent
  conditioning_input : Option Conditioning
  vae_input : Option ModelHandle
  clip_input : Option ModelHandle
  model_input : Option ModelHandle
  controlnet_input : Option ModelHandle
  upscale_input : Option ModelHandle
  any_input : Option ModelHandle

namespace UniversalModelUnloaderWithIONode

/-- `UniversalModelUnloaderWithIO.process_with_unload`
(`model_unloader_io.py` lines 96-147).  `execute_unload_operation` reads
only the GPU/VRAM environment and the unload parameters, so it is
abstracted as a function `execOp` from the parameters to the two report
strings. -/
def process_with_unload (execOp : UnloadParams → String × String) (p : UnloadParams)
    (kwargs : IOKwargs) :
    Option Tensor × Option Latent × Option Conditioning × Option ModelHandle
      × Option ModelHandle × Option ModelHandle × Option ModelHandle × Option ModelHandle
      × String × String :=
  let input_data := kwargs
  let r := execOp p
  (input_data.image_input, input_data.latent_input, input_data.conditioning_input,
    input_data.vae_input, input_data.clip_input, input_data.model_input,
    input_data.controlnet_input, input_data.upscale_input, r.1, r.2)

end UniversalModelUnloaderWithIONode

open UniversalModelUnloaderWithIONode in
/-- C9: `process_with_unload` returns its eight optional data inputs
unchanged and in their original positions, for every engine and every
parameter setting; only the two trailing report strings depend on the
unload parameters, and the data outputs are identical across any two
parameter settings. -/
theorem C9_unloader_passthrough (execOp : UnloadParams → String × String)
    (p q : UnloadParams) (kwargs : IOKwargs) :
    (process_with_unload execOp p kwargs).1 = kwargs.image_input
    ∧ (process_with_unload execOp p kwargs).2.1 = kwargs.latent_input
    ∧ (process_with_unload execOp p kwargs).2.2.1 = kwargs.conditioning_input
    ∧ (process_with_unload execOp p kwargs).2.2.2.1 = kwargs.vae_input
    ∧ (process_with_unload execOp p kwargs).2.2.2.2.1 = kwargs.clip_input
    ∧ (process_with_unload execOp p kwargs).2.2.2.2.2.1 = kwargs.model_input
    ∧ (process_with_unload execOp p kwargs).2.2.2.2.2.2.1 = kwargs.controlnet_input
    ∧ (process_with_unload execOp p kwargs).2.2.2.2.2.2.2.1 = kwargs.upscale_input
    ∧ (process_with_unload execOp p kwargs).2.2.2.2.2.2.2.2.1 = (execOp p).1
    ∧ (process_with_unload execOp p kwargs).2.2.2.2.2.2.2.2.2 = (execOp p).2
    ∧ ((process_with_unload execOp p kwargs).1, (process_with_unload execOp p kwargs).2.1,
        (process_with_unload execOp p kwargs).2.2.1,
        (process_with_unload execOp p kwargs).2.2.2.1,
        (process_with_unload execOp p kwargs).2.2.2.2.1,
        (process_with_unload execOp p kwargs).2.2.2.2.2.1,
        (process_with_unload execOp p kwargs).2.2.2.2.2.2.1,
        (process_with_unload execOp p kwargs).2.2.2.2.2.2.2.1)
      = ((process_with_unload execOp q kwargs).1, (process_with_unload execOp q kwargs).2.1,
        (process_with_unload execOp q kwargs).2.2.1,
        (process_with_unload execOp q kwargs).2.2.2.1,
        (process_with_unload execOp q kwargs).2.2.2.2.1,
        (process_with_unload execOp q kwargs).2.2.2.2.2.1,
        (process_with_unload execOp q kwargs).2.2.2.2.2.2.1,
        (process_with_unload execOp q kwargs).2.2.2.2.2.2.2.1) :=
  ⟨rfl, rfl, rfl, rfl, rfl, rfl, rfl, rfl, rfl, rfl, rfl⟩

/-! ## Return-arity registry (claim C8)

Every node class registered through `src/__init__.py` (the merged
`NODE_CLASS_MAPPINGS` of the ten modules) is modelled here at the level of
its return tuple: `RVal` records which kind of value occupies each
component, and each processing function is translated branch-by-branch
from the source, returning the list of components it produces on that
branch.  Payloads are carried only where they influence branching (shapes,
option-ness); functions modelled in full elsewhere in this file reappear
here in this uniform arity form. -/

namespace Registry

/-- Kind of a value placed in a node's return tuple. -/
inductive RVal where
  | image | latent | mask | cond | audio | video | str | intV | floatV | boolV
  | vae | clip | modelV | controlnet | upscale | noneV
deriving DecidableEq

/-- A value passed through `UniversalOutputNode`'s `any_input`: a torch
tensor, a latent dict carrying a `samples` key, or anything else. -/
inductive AnyValue where
  | tens (t : Tensor)
  | lat (l : Latent)
  | other

def EmptyInputNode.RETURN_TYPES : List String := ["IMAGE", "LATENT", "MASK", "STRING"]

/-- `EmptyInputNode.generate_input` (`empty_input_nodes.py` lines 29-46). -/
def EmptyInputNode.generate_input (input_type : String) (_width _height _batch_size : Nat)
    (_content_type : String) : List RVal :=
  if input_type = "image" then [.image, .noneV, .noneV, .str]
  else if input_type = "latent" then [.noneV, .latent, .noneV, .str]
  else if input_type = "mask" then [.noneV, .noneV, .mask, .str]
  else if input_type = "conditioning" then [.noneV, .latent, .noneV, .str]
  else [.image, .noneV, .noneV, .str]

def UniversalInputNode.RETURN_TYPES : List String := ["IMAGE", "LATENT", "MASK", "STRING"]

/-- `UniversalInputNode.generate_input` (`empty_input_nodes.py` lines 157-171). -/
def UniversalInputNode.generate_input (data_type : String) (_width _height : Nat)
    (_content_style : String) : List RVal :=
  if data_type = "image" then [.image, .noneV, .noneV, .str]
  else if data_type = "latent" then [.noneV, .latent, .noneV, .str]
  else if data_type = "mask" then [.noneV, .noneV, .mask, .str]
  else [.image, .noneV, .noneV, .str]

def EmptyOutputNode.RETURN_TYPES : List String :=
  ["IMAGE", "LATENT", "MASK", "CONDITIONING", "STRING"]

/-- `EmptyOutputNode.process_output` (`empty_output_nodes.py` lines 32-55). -/
def EmptyOutputNode.process_output (enable_passthrough _log_received_data : Bool)
    (image_input latent_input mask_input conditioning_input : Option RVal) : List RVal :=
  if enable_passthrough then
    [image_input.getD .noneV, latent_input.getD .noneV, mask_input.getD .noneV,
      conditioning_input.getD .noneV, .str]
  else [.noneV, .noneV, .noneV, .noneV, .str]

def UniversalOutputNode.RETURN_TYPES : List String := ["IMAGE", "LATENT", "MASK", "STRING"]

/-- The fallback tail of `UniversalOutputNode.universal_output`
(`empty_output_nodes.py` lines 93-107). -/
def UniversalOutputNode.fallback_output (output_type : String) : List RVal :=
  if output_type = "auto" ∨ output_type = "image" then [.image, .noneV, .noneV, .str]
  else if output_type = "latent" then [.noneV, .latent, .noneV, .str]
  else if output_type = "mask" then [.noneV, .noneV, .mask, .str]
  else [.image, .noneV, .noneV, .str]

/-- `UniversalOutputNode.universal_output` (`empty_output_nodes.py` lines
79-107): a 4-D tensor with last dimension 3 or 4 passes through as image,
a 2-D tensor as mask, a latent dict as latent; every other input falls
through to the `output_type` fallback. -/
def UniversalOutputNode.universal_output (output_type : String) (_fw _fh : Nat)
    (any_input : Option AnyValue) : List RVal :=
  match any_input with
  | some (.tens t) =>
      if t.shape.length = 4 ∧ (t.shape.getD 3 0 = 3 ∨ t.shape.getD 3 0 = 4) then
        [.image, .noneV, .noneV, .str]
      else if t.shape.length = 2 then [.noneV, .noneV, .mask, .str]
      else UniversalOutputNode.fallback_output output_type
  | some (.lat _) => [.noneV, .latent, .noneV, .str]
  | some .other => UniversalOutputNode.fallback_output output_type
  | none => UniversalOutputNode.fallback_output output_type

def VAEDecoderOptimizer.RETURN_TYPES : List String := ["IMAGE", "STRING"]

/-- `VAEDecoderOptimizer.optimized_decode` (`vae_optimizer.py` lines
59-147): the try branch returns `(image, status)`, the except branch the
fallback pair. -/
def VAEDecoderOptimizer.optimized_decode (decode_raised : Bool) : List RVal :=
  if decode_raised then [.image, .str] else [.image, .str]

def SimpleVAEDecoder.RETURN_TYPES : List String := ["IMAGE", "STRING"]

/-- `SimpleVAEDecoder.simple_decode` (`vae_optimizer.py` lines 313-339). -/
def SimpleVAEDecoder.simple_decode (decode_raised : Bool) : List RVal :=
  if decode_raised then [.image, .str] else [.image, .str]

def ImageDataTypeFix.RETURN_TYPES : List String := ["IMAGE", "STRING"]

/-- `ImageDataTypeFix.fix_data_type` (`vae_optimizer.py` lines 388-473):
single return point. -/
def ImageDataTypeFix.fix_data_type : List RVal := [.image, .str]

def ImageToPixelInput.RETURN_TYPES : List String := ["IMAGE", "STRING"]

/-- `ImageToPixelInput.convert_to_pixels` (`image_converter.py` lines
35-55): single return point. -/
def ImageToPixelInput.convert_to_pixels : List RVal := [.image, .str]

def PixelDataAnalyzer.RETURN_TYPES : List String := ["STRING", "STRING", "STRING"]

/-- `PixelDataAnalyzer.analyze_pixels` (`image_converter.py` lines
95-100): single return point. -/
def PixelDataAnalyzer.analyze_pixels : List RVal := [.str, .str, .str]

def AdvancedImageSaver.RETURN_TYPES : List String := ["STRING"]

/-- `AdvancedImageSaver.save_images` (`image_converter.py` lines 209-369):
five return points (auto-save off, no images, empty custom directory,
directory-creation failure, and the final detail report), all 1-tuples. -/
def AdvancedImageSaver.save_images (auto_save images_empty custom_dir custom_path_blank
    makedirs_raised : Bool) : List RVal :=
  if ¬ auto_save then [.str]
  else if images_empty then [.str]
  else if custom_dir ∧ custom_path_blank then [.str]
  else if makedirs_raised then [.str]
  else [.str]

def MemoryOptimizer.RETURN_TYPES : List String := ["STRING"]

/-- `MemoryOptimizer.optimize_memory` (`utils.py` lines 27-45): single
return point. -/
def MemoryOptimizer.optimize_memory : List RVal := [.str]

def WorkflowValidator.RETURN_TYPES : List String := ["AUDIO", "VIDEO", "LATENT", "STRING"]

/-- `WorkflowValidator.validate_workflow` (`utils.py` lines 69-139): each
fixed output is the input when supplied, the default when auto-fix is on,
and None otherwise. -/
def WorkflowValidator.validate_workflow (_validate_connections auto_fix_missing : Bool)
    (audio_input video_input latent_input : Option RVal) : List RVal :=
  [if audio_input.isSome ∨ auto_fix_missing then audio_input.getD .audio else .noneV,
    if video_input.isSome ∨ auto_fix_missing then video_input.getD .video else .noneV,
    if latent_input.isSome ∨ auto_fix_missing then latent_input.getD .latent else .noneV,
    .str]

/-- Shared body of the eight typed switches of `utils.py` (e.g.
`AudioSwitch.switch_audio`, lines 161-180): selected input if present,
else the other input if present, else the type's fixed default
(represented by its kind `dflt`).  The eight functions are textually
identical up to the default value and the status strings. -/
def typedSwitchReturn (dflt : RVal) (select_input : String)
    (input1 input2 : Option RVal) : List RVal :=
  if select_input = "input1" ∧ input1.isSome then [input1.getD .noneV, .str]
  else if select_input = "input2" ∧ input2.isSome then [input2.getD .noneV, .str]
  else if input1.isSome then [input1.getD .noneV, .str]
  else if input2.isSome then [input2.getD .noneV, .str]
  else [dflt, .str]

def AudioSwitch.RETURN_TYPES : List String := ["AUDIO", "STRING"]

/-- `AudioSwitch.switch_audio` (`utils.py` lines 161-180). -/
def AudioSwitch.switch_audio (s : String) (i1 i2 : Option RVal) : List RVal :=
  typedSwitchReturn .audio s i1 i2

def VideoSwitch.RETURN_TYPES : List String := ["VIDEO", "STRING"]

/-- `VideoSwitch.switch_video` (`utils.py` lines 202-221). -/
def VideoSwitch.switch_video (s : String) (i1 i2 : Option RVal) : List RVal :=
  typedSwitchReturn .video s i1 i2

def LatentSwitch.RETURN_TYPES : List String := ["LATENT", "STRING"]

/-- `LatentSwitch.switch_latent` (`utils.py` lines 243-262). -/
def LatentSwitch.switch_latent (s : String) (i1 i2 : Option RVal) : List RVal :=
  typedSwitchReturn .latent s i1 i2

def ConditioningSwitch.RETURN_TYPES : List String := ["CONDITIONING", "STRING"]

/-- `ConditioningSwitch.switch_conditioning` (`utils.py` lines 284-302). -/
def ConditioningSwitch.switch_conditioning (s : String) (i1 i2 : Option RVal) : List RVal :=
  typedSwitchReturn .cond s i1 i2

def StringSwitch.RETURN_TYPES : List String := ["STRING", "STRING"]

/-- `StringSwitch.switch_string` (`utils.py` lines 324-342). -/
def StringSwitch.switch_string (s : String) (i1 i2 : Option RVal) : List RVal :=
  typedSwitchReturn .str s i1 i2

def IntSwitch.RETURN_TYPES : List String := ["INT", "STRING"]

/-- `IntSwitch.switch_int` (`utils.py` lines 364-382). -/
def IntSwitch.switch_int (s : String) (i1 i2 : Option RVal) : List RVal :=
  typedSwitchReturn .intV s i1 i2

def FloatSwitch.RETURN_TYPES : List String := ["FLOAT", "STRING"]

/-- `FloatSwitch.switch_float` (`utils.py` lines 404-422). -/
def FloatSwitch.switch_float (s : String) (i1 i2 : Option RVal) : List RVal :=
  typedSwitchReturn .floatV s i1 i2

def BooleanSwitch.RETURN_TYPES : List String := ["BOOLEAN", "STRING"]

/-- `BooleanSwitch.switch_boolean` (`utils.py` lines 444-462). -/
def BooleanSwitch.switch_boolean (s : String) (i1 i2 : Option RVal) : List RVal :=
  typedSwitchReturn .boolV s i1 i2

def SimpleAudioSwitch.RETURN_TYPES : List String := ["AUDIO", "STRING"]

/-- `SimpleAudioSwitch.switch_audio_simple` (`utils.py` lines 482-488). -/
def SimpleAudioSwitch.switch_audio_simple (select_input : String)
    (input_a input_b : RVal) : List RVal :=
  if select_input = "input_a" then [input_a, .str] else [input_b, .str]

def SimpleVideoSwitch.RETURN_TYPES : List String := ["VIDEO", "STRING"]

/-- `SimpleVideoSwitch.switch_video_simple` (`utils.py` lines 508-514). -/
def SimpleVideoSwitch.switch_video_simple (select_input : String)
    (input_a input_b : RVal) : List RVal :=
  if select_input = "input_a" then [input_a, .str] else [input_b, .str]

def ImageSwitchManual.RETURN_TYPES : List String := ["IMAGE", "STRING"]

/-- `ImageSwitchManual.switch_images` (`image_switch.py` lines 33-58). -/
def ImageSwitchManual.switch_images (select_first : Bool)
    (image_A image_B : Option RVal) : List RVal :=
  if select_first ∧ image_A.isSome then [image_A.getD .noneV, .str]
  else if ¬ select_first ∧ image_B.isSome then [image_B.getD .noneV, .str]
  else if select_first ∧ ¬ image_A.isSome ∧ image_B.isSome then [image_B.getD .noneV, .str]
  else if ¬ select_first ∧ ¬ image_B.isSome ∧ image_A.isSome then [image_A.getD .noneV, .str]
  else [.image, .str]

def ImageSwitchAdvanced.RETURN_TYPES : List String := ["IMAGE", "STRING"]

/-- `ImageSwitchAdvanced.advanced_switch` (`image_switch.py` lines 84-119). -/
def ImageSwitchAdvanced.advanced_switch (switch_mode : String) (auto_fallback : Bool)
    (image_A image_B : Option RVal) : List RVal :=
  if switch_mode = "auto" then
    if image_A.isSome then [image_A.getD .noneV, .str]
    else if image_B.isSome then [image_B.getD .noneV, .str]
    else [.image, .str]
  else if switch_mode = "A" then
    if image_A.isSome then [image_A.getD .noneV, .str]
    else if auto_fallback ∧ image_B.isSome then [image_B.getD .noneV, .str]
    else [.image, .str]
  else
    if image_B.isSome then [image_B.getD .noneV, .str]
    else if auto_fallback ∧ image_A.isSome then [image_A.getD .noneV, .str]
    else [.image, .str]

def ImageBlendSwitch.RETURN_TYPES : List String := ["IMAGE", "STRING"]

/-- `ImageBlendSwitch.blend_images` (`image_switch.py` lines 145-179). -/
def ImageBlendSwitch.blend_images (blend_factor : ℚ) (use_blend : Bool)
    (image_A image_B : Option Tensor) : List RVal :=
  if ¬ image_A.isSome ∧ ¬ image_B.isSome then [.image, .str]
  else if ¬ image_A.isSome then [.image, .str]
  else if ¬ image_B.isSome then [.image, .str]
  else if (image_A.getD (tzeros [])).shape ≠ (image_B.getD (tzeros [])).shape then
    [.image, .str]
  else if use_blend then [.image, .str]
  else if blend_factor < 1/2 then [.image, .str]
  else [.image, .str]

def UniversalModelUnloader.RETURN_TYPES : List String := ["STRING", "STRING"]

/-- `UniversalModelUnloader.unload_models` (`model_unloader.py` lines
67-133): early return when not triggered, otherwise the report pair. -/
def UniversalModelUnloader.unload_models (trigger_unload : Bool) : List RVal :=
  if ¬ trigger_unload then [.str, .str] else [.str, .str]

def SmartMemoryManager.RETURN_TYPES : List String := ["STRING", "STRING"]

/-- `SmartMemoryManager.manage_memory` (`model_unloader.py` lines
432-472): early return when auto-manage is off, otherwise the report
pair. -/
def SmartMemoryManager.manage_memory (auto_manage : Bool) : List RVal :=
  if ¬ auto_manage then [.str, .str] else [.str, .str]

def UnloaderPassthroughNode.RETURN_TYPES : List String :=
  ["IMAGE", "LATENT", "CONDITIONING", "VAE", "CLIP", "MODEL", "CONTROL_NET",
    "UPSCALE_MODEL", "STRING", "STRING"]

/-- Arity form of ` UniversalModelUnloaderWithIO.process_with_unload`
(`model_unloader_io.py` lines 96-147); the full model is
`UniversalModelUnloaderWithIONode.process_with_unload` above. -/
def UnloaderPassthroughNode.process_with_unload
    (image latent cond vae clip modelIn controlnet upscale : Option RVal) : List RVal :=
  [image.getD .noneV, latent.getD .noneV, cond.getD .noneV, vae.getD .noneV,
    clip.getD .noneV, modelIn.getD .noneV, controlnet.getD .noneV, upscale.getD .noneV,
    .str, .str]

def SmartModelManager.RETURN_TYPES : List String :=
  ["IMAGE", "LATENT", "CONDITIONING", "VAE", "CLIP", "MODEL", "CONTROL_NET",
    "UPSCALE_MODEL", "STRING", "STRING"]

/-- `SmartModelManager.manage_with_passthrough` (`model_unloader_io.py`
lines 642-680): same passthrough structure. -/
def SmartModelManager.manage_with_passthrough
    (image latent cond vae clip modelIn controlnet upscale : Option RVal) : List RVal :=
  [image.getD .noneV, latent.getD .noneV, cond.getD .noneV, vae.getD .noneV,
    clip.getD .noneV, modelIn.getD .noneV, controlnet.getD .noneV, upscale.getD .noneV,
    .str, .str]

def InstantPreviewImageLoader.RETURN_TYPES : List String := ["IMAGE", "MASK", "STRING"]

/-- Arity form of `InstantPreviewImageLoader.load_image`
(`instant_preview_loader.py` lines 92-115): each of the three operating
modes returns an image/mask/status triple on both its success and failure
paths (the full model is `InstantPreviewImageLoader.load_image` above). -/
def InstantPreviewImageLoader.load_image (mode : String) (failed : Bool) : List RVal :=
  if mode = "上传模式" then
    if failed then [.image, .mask, .str] else [.image, .mask, .str]
  else if mode = "目录监控模式" then
    if failed then [.image, .mask, .str] else [.image, .mask, .str]
  else
    if failed then [.image, .mask, .str] else [.image, .mask, .str]

def KSamplerWithInfo.RETURN_TYPES : List String := ["LATENT", "STRING"]

/-- `KSamplerWithInfo.sample` (`ksampler_with_info.py` lines 35-69):
single return point. -/
def KSamplerWithInfo.sample : List RVal := [.latent, .str]

def KSamplerAdvancedWithInfo.RETURN_TYPES : List String := ["LATENT", "STRING"]

/-- `KSamplerAdvancedWithInfo.sample` (`ksampler_with_info.py` lines
100-135): single return point. -/
def KSamplerAdvancedWithInfo.sample : List RVal := [.latent, .str]

end Registry

/-- C8: for every plugin node class registered in the repository (the 32
classes collected into the merged `NODE_CLASS_MAPPINGS`) and every input
on which its processing function returns normally, the returned tuple has
exactly as many components as the class's declared `RETURN_TYPES`. -/
theorem C8_return_arity :
    (∀ it w h b c, (Registry.EmptyInputNode.generate_input it w h b c).length
        = Registry.EmptyInputNode.RETURN_TYPES.length)
    ∧ (∀ dt w h s, (Registry.UniversalInputNode.generate_input dt w h s).length
        = Registry.UniversalInputNode.RETURN_TYPES.length)
    ∧ (∀ ep lg i l m c, (Registry.EmptyOutputNode.process_output ep lg i l m c).length
        = Registry.EmptyOutputNode.RETURN_TYPES.length)
    ∧ (∀ ot fw fh a, (Registry.UniversalOutputNode.universal_output ot fw fh a).length
        = Registry.UniversalOutputNode.RETURN_TYPES.length)
    ∧ (∀ e, (Registry.VAEDecoderOptimizer.optimized_decode e).length
        = Registry.VAEDecoderOptimizer.RETURN_TYPES.length)
    ∧ (∀ e, (Registry.SimpleVAEDecoder.simple_decode e).length
        = Registry.SimpleVAEDecoder.RETURN_TYPES.length)
    ∧ Registry.ImageDataTypeFix.fix_data_type.length
        = Registry.ImageDataTypeFix.RETURN_TYPES.length
    ∧ Registry.ImageToPixelInput.convert_to_pixels.length
        = Registry.ImageToPixelInput.RETURN_TYPES.length
    ∧ Registry.PixelDataAnalyzer.analyze_pixels.length
        = Registry.PixelDataAnalyzer.RETURN_TYPES.length
    ∧ (∀ a ie cd cb mr, (Registry.AdvancedImageSaver.save_images a ie cd cb mr).length
        = Registry.AdvancedImageSaver.RETURN_TYPES.length)
    ∧ Registry.MemoryOptimizer.optimize_memory.length
        = Registry.MemoryOptimizer.RETURN_TYPES.length
    ∧ (∀ vc af a v l, (Registry.WorkflowValidator.validate_workflow vc af a v l).length
        = Registry.WorkflowValidator.RETURN_TYPES.length)
    ∧ (∀ s i1 i2, (Registry.AudioSwitch.switch_audio s i1 i2).length
        = Registry.AudioSwitch.RETURN_TYPES.length)
    ∧ (∀ s i1 i2, (Registry.VideoSwitch.switch_video s i1 i2).length
        = Registry.VideoSwitch.RETURN_TYPES.length)
    ∧ (∀ s i1 i2, (Registry.LatentSwitch.switch_latent s i1 i2).length
        = Registry.LatentSwitch.RETURN_TYPES.length)
    ∧ (∀ s i1 i2, (Registry.ConditioningSwitch.switch_conditioning s i1 i2).length
        = Registry.ConditioningSwitch.RETURN_TYPES.length)
    ∧ (∀ s i1 i2, (Registry.StringSwitch.switch_string s i1 i2).length
        = Registry.StringSwitch.RETURN_TYPES.length)
    ∧ (∀ s i1 i2, (Registry.IntSwitch.switch_int s i1 i2).length
        = Registry.IntSwitch.RETURN_TYPES.length)
    ∧ (∀ s i1 i2, (Registry.FloatSwitch.switch_float s i1 i2).length
        = Registry.FloatSwitch.RETURN_TYPES.length)
    ∧ (∀ s i1 i2, (Registry.BooleanSwitch.switch_boolean s i1 i2).length
        = Registry.BooleanSwitch.RETURN_TYPES.length)
    ∧ (∀ s a b, (Registry.SimpleAudioSwitch.switch_audio_simple s a b).length
        = Registry.SimpleAudioSwitch.RETURN_TYPES.length)
    ∧ (∀ s a b, (Registry.SimpleVideoSwitch.switch_video_simple s a b).length
        = Registry.SimpleVideoSwitch.RETURN_TYPES.length)
    ∧ (∀ sf a b, (Registry.ImageSwitchManual.switch_images sf a b).length
        = Registry.ImageSwitchManual.RETURN_TYPES.length)
    ∧ (∀ m af a b, (Registry.ImageSwitchAdvanced.advanced_switch m af a b).length
        = Registry.ImageSwitchAdvanced.RETURN_TYPES.length)
    ∧ (∀ bf ub a b, (Registry.ImageBlendSwitch.blend_images bf ub a b).length
        = Registry.ImageBlendSwitch.RETURN_TYPES.length)
    ∧ (∀ t, (Registry.UniversalModelUnloader.unload_models t).length
        = Registry.UniversalModelUnloader.RETURN_TYPES.length)
    ∧ (∀ a, (Registry.SmartMemoryManager.manage_memory a).length
        = Registry.SmartMemoryManager.RETURN_TYPES.length)
    ∧ (∀ i l c v cl m cn u,
        (Registry.UnloaderPassthroughNode.process_with_unload i l c v cl m cn u).length
        = Registry.UnloaderPassthroughNode.RETURN_TYPES.length)
    ∧ (∀ i l c v cl m cn u,
        (Registry.SmartModelManager.manage_with_passthrough i l c v cl m cn u).length
        = Registry.SmartModelManager.RETURN_TYPES.length)
    ∧ (∀ m f, (Registry.InstantPreviewImageLoader.load_image m f).length
        = Registry.InstantPreviewImageLoader.RETURN_TYPES.length)
    ∧ Registry.KSamplerWithInfo.sample.length
        = Registry.KSamplerWithInfo.RETURN_TYPES.length
    ∧ Registry.KSamplerAdvancedWithInfo.sample.length
        = Registry.KSamplerAdvancedWithInfo.RETURN_TYPES.length := by
  refine ⟨?_, ?_, ?_, ?_, ?_, ?_, rfl, rfl, rfl, ?_, rfl, ?_, ?_, ?_, ?_, ?_, ?_, ?_,
    ?_, ?_, ?_, ?_, ?_, ?_, ?_, ?_, ?_, ?_, ?_, ?_, rfl, rfl⟩
  · intro it w h b c
    unfold Registry.EmptyInputNode.generate_input
    split_ifs <;> rfl
  · intro dt w h s
    unfold Registry.UniversalInputNode.generate_input
    split_ifs <;> rfl
  · intro ep lg i l m c
    unfold Registry.EmptyOutputNode.process_output
    split_ifs <;> rfl
  · intro ot fw fh a
    rcases a with - | (t | l | -) <;>
      simp only [Registry.UniversalOutputNode.universal_output,
        Registry.UniversalOutputNode.fallback_output] <;>
      first
      | rfl
      | (split_ifs <;> rfl)
  · intro e
    unfold Registry.VAEDecoderOptimizer.optimized_decode
    split_ifs <;> rfl
  · intro e
    unfold Registry.SimpleVAEDecoder.simple_decode
    split_ifs <;> rfl
  · intro a ie cd cb mr
    unfold Registry.AdvancedImageSaver.save_images
    split_ifs <;> rfl
  · intro vc af a v l
    unfold Registry.WorkflowValidator.validate_workflow
    rfl
  · intro s i1 i2
    unfold Registry.AudioSwitch.switch_audio Registry.typedSwitchReturn
    split_ifs <;> rfl
  · intro s i1 i2
    unfold Registry.VideoSwitch.switch_video Registry.typedSwitchReturn
    split_ifs <;> rfl
  · intro s i1 i2
    unfold Registry.LatentSwitch.switch_latent Registry.typedSwitchReturn
    split_ifs <;> rfl
  · intro s i1 i2
    unfold Registry.ConditioningSwitch.switch_conditioning Registry.typedSwitchReturn
    split_ifs <;> rfl
  · intro s i1 i2
    unfold Registry.StringSwitch.switch_string Registry.typedSwitchReturn
    split_ifs <;> rfl
  · intro s i1 i2
    unfold Registry.IntSwitch.switch_int Registry.typedSwitchReturn
    split_ifs <;> rfl
  · intro s i1 i2
    unfold Registry.FloatSwitch.switch_float Registry.typedSwitchReturn
    split_ifs <;> rfl
  · intro s i1 i2
    unfold Registry.BooleanSwitch.switch_boolean Registry.typedSwitchReturn
    split_ifs <;> rfl
  · intro s a b
    unfold Registry.SimpleAudioSwitch.switch_audio_simple
    split_ifs <;> rfl
  · intro s a b
    unfold Registry.SimpleVideoSwitch.switch_video_simple
    split_ifs <;> rfl
  · intro sf a b
    unfold Registry.ImageSwitchManual.switch_images
    split_ifs <;> rfl
  · intro m af a b
    unfold Registry.ImageSwitchAdvanced.advanced_switch
    split_ifs <;> rfl
  · intro bf ub a b
    unfold Registry.ImageBlendSwitch.blend_images
    split_ifs <;> rfl
  · intro t
    unfold Registry.UniversalModelUnloader.unload_models
    split_ifs <;> rfl
  · intro a
    unfold Registry.SmartMemoryManager.manage_memory
    split_ifs <;> rfl
  · intro i l c v cl m cn u
    unfold Registry.UnloaderPassthroughNode.process_with_unload
    rfl
  · intro i l c v cl m cn u
    unfold Registry.SmartModelManager.manage_with_passthrough
    rfl
  · intro m f
    unfold Registry.InstantPreviewImageLoader.load_image
    split_ifs <;> rfl

end Mislg
